import Mathlib

/-!
Shallow embedding of the Sardines flock-simulation core
(src/src/systems/Fish.ts, src/src/systems/FlockManager.ts and the boids
Fish snapshot in src/unnamed/part_009), together with theorems settling
the frozen claims about the per-agent motion model, the social-force
blending, boundary containment and the flock aggregator.

Conventions of the embedding:
* JavaScript IEEE numbers are modelled by an arbitrary `LinearOrderedField`
  so that every definition is executable; the claim theorems instantiate
  the field at `ℝ` with the genuine `Real.pi`, `Real.sqrt`, `Real.arccos`,
  `Real.sin`, `Real.cos`, `Real.log` and `Complex.arg`-based `atan2`
  (record `realOps` below), matching `Math.*` exactly on real inputs.
* Every call to `Math.random()` in the source is replaced by an explicit
  input parameter in `[0,1)`; a theorem quantifying over those parameters
  covers every possible random draw.
* `performance.now() * 0.001` (the wall-clock time) is an explicit `now`
  parameter.
* three.js `Vector3` mutation is translated to explicit functional state
  passing; aliasing effects (e.g. `applySocialInfluence` reading the
  social-force vector after normalizing and scaling it in place) are
  reproduced by using the mutated value at the corresponding read.
* JS object identity (`otherFish !== this`) is modelled by a ghost `id`
  field on the Phase-1 fish state; distinct live fish are distinct objects.
-/

namespace Sardines

/-- Math library operations used by the source (`Math.sqrt`, `Math.acos`,
`Math.atan2`, `Math.sin`, `Math.cos`, `Math.log`, `Math.PI`), abstracted so
the embedding stays executable; instantiated at the real functions in the
claim theorems. -/
structure MathOps (α : Type) where
  pi : α
  sqrt : α → α
  acos : α → α
  atan2 : α → α → α
  sin : α → α
  cos : α → α
  log : α → α

/-- Real instantiation of the math operations. `atan2 y x` is the argument
of the complex number `x + y*I`, which agrees with JavaScript
`Math.atan2(y, x)` on its whole domain. -/
noncomputable def realOps : MathOps ℝ where
  pi := Real.pi
  sqrt := Real.sqrt
  acos := Real.arccos
  atan2 := fun y x => Complex.arg ⟨x, y⟩
  sin := Real.sin
  cos := Real.cos
  log := Real.log

/-- three.js `Vector3`. -/
structure Vec3 (α : Type) where
  x : α
  y : α
  z : α

namespace Vec3

variable {α : Type} [LinearOrderedField α]

/-- Embeds `new THREE.Vector3()` / `set(0,0,0)`. -/
def zero : Vec3 α := ⟨0, 0, 0⟩

/-- Embeds `Vector3.add`. -/
def add (a b : Vec3 α) : Vec3 α := ⟨a.x + b.x, a.y + b.y, a.z + b.z⟩

/-- Embeds `Vector3.sub`. -/
def sub (a b : Vec3 α) : Vec3 α := ⟨a.x - b.x, a.y - b.y, a.z - b.z⟩

/-- Embeds `Vector3.multiplyScalar k`. -/
def smul (k : α) (a : Vec3 α) : Vec3 α := ⟨k * a.x, k * a.y, k * a.z⟩

/-- Embeds `Vector3.divideScalar k` (three.js implements it as
`multiplyScalar(1/k)`). -/
def divScalar (k : α) (a : Vec3 α) : Vec3 α := smul (1 / k) a

/-- Embeds `Vector3.dot`. -/
def dot (a b : Vec3 α) : α := a.x * b.x + a.y * b.y + a.z * b.z

/-- Embeds `Vector3.lengthSq`. -/
def normSq (a : Vec3 α) : α := a.x * a.x + a.y * a.y + a.z * a.z

/-- Embeds `Vector3.length` = `Math.sqrt(lengthSq)`. -/
def len (M : MathOps α) (a : Vec3 α) : α := M.sqrt (normSq a)

/-- Embeds `Vector3.distanceTo`. -/
def distanceTo (M : MathOps α) (a b : Vec3 α) : α := len M (sub a b)

/-- Embeds `Vector3.normalize` = `divideScalar(length() || 1)`: a vector of length
zero is left unchanged (JS `||` replaces the falsy `0` with `1`). -/
def normalize (M : MathOps α) (a : Vec3 α) : Vec3 α :=
  let l := len M a
  if l = 0 then a else divScalar l a

/-- Embeds `Vector3.lerp v t` (componentwise `x += (v.x - x) * t`). -/
def lerp (a b : Vec3 α) (t : α) : Vec3 α :=
  ⟨a.x + (b.x - a.x) * t, a.y + (b.y - a.y) * t, a.z + (b.z - a.z) * t⟩

/-- Embeds `Vector3.crossVectors`. -/
def cross (a b : Vec3 α) : Vec3 α :=
  ⟨a.y * b.z - a.z * b.y, a.z * b.x - a.x * b.z, a.x * b.y - a.y * b.x⟩

/-- three.js `Vector3.angleTo`: `acos(clamp(dot/(√(len²·len²)), -1, 1))`,
with the degenerate-denominator guard returning `π/2`. -/
def angleTo (M : MathOps α) (a b : Vec3 α) : α :=
  let denominator := M.sqrt (normSq a * normSq b)
  if denominator = 0 then M.pi / 2
  else M.acos (max (-1) (min 1 (dot a b / denominator)))

end Vec3

/-- Embeds `THREE.Box3` (axis-aligned bounds, `min`/`max` corners). -/
structure Box3 (α : Type) where
  min : Vec3 α
  max : Vec3 α

/-- JavaScript `Math.sign` (on non-NaN input). -/
def jsSign {α : Type} [LinearOrderedField α] (x : α) : α :=
  if 0 < x then 1 else if x < 0 then -1 else 0

/-- JavaScript `MathUtils.clamp(value, min, max)` =
`Math.max(min, Math.min(max, value))`. -/
def jsClamp {α : Type} [LinearOrderedField α] (value lo hi : α) : α :=
  max lo (min hi value)

/-! ## Phase-1 fish data model (src/src/systems/Fish.ts)

Decimal constants of the source are written as exact fractions
(`0.5 = 1/2`, `1.5 = 3/2`, `0.3 = 3/10`, ...). The `SpeedMode` enum members
are their numeric values (`RESTING = 0.5`, `CRUISING = 1.5`, `ACTIVE = 2.5`,
`BURST = 4.0`), exactly as in TypeScript where the enum is number-valued. -/

/-- Embeds `CoreMovement.undulation`. -/
structure Undulation (α : Type) where
  frequency : α
  amplitude : α
  phase : α
  speedMultiplier : α

/-- Embeds `CoreMovement.roll`. -/
structure RollState (α : Type) where
  currentAngle : α
  targetAngle : α
  rollSpeed : α
  maxRollAngle : α

/-- Embeds `CoreMovement.speed`. `currentMode` stores the numeric value of the
`SpeedMode` enum member. -/
structure SpeedState (α : Type) where
  currentMode : α
  targetSpeed : α
  currentSpeed : α
  acceleration : α
  lastModeChange : α

/-- Embeds `CoreMovement.direction`. -/
structure DirectionState (α : Type) where
  currentHeading : Vec3 α
  targetHeading : Vec3 α
  turnRate : α
  turnRadius : α
  lastDirectionChange : α
  isChangingDirection : Bool

/-- Embeds `CoreMovement`. -/
structure CoreMovement (α : Type) where
  undulation : Undulation α
  roll : RollState α
  speed : SpeedState α
  direction : DirectionState α

/-- Embeds `FishPhysics` (rotation is a `THREE.Euler`, modelled by its three
angle components). -/
structure FishPhysics (α : Type) where
  position : Vec3 α
  rotation : Vec3 α
  scale : Vec3 α
  velocity : Vec3 α

/-- Embeds `FishSize`. -/
structure FishSize (α : Type) where
  scaleFactor : α
  bodyLength : α
  speedMultiplier : α
  agilityMultiplier : α
  turnRateMultiplier : α

/-- Embeds `FishBehavior` (Phase-1 + flocking configuration). -/
structure FishBehavior (α : Type) where
  bodyLength : α
  maxTurnRate : α
  maxRollAngle : α
  rollSpeed : α
  undulationFrequency : α
  undulationAmplitude : α
  accelerationRate : α
  directionChangeInterval : α
  turnSmoothness : α
  neighborRadius : α
  separationRadius : α
  cohesionStrength : α
  separationStrength : α
  alignmentStrength : α
  individualWeight : α
  socialWeight : α

/-- State of one Phase-1 `Fish` object. The `id` field is a ghost tag
standing for JS object identity (`!==`); the source never reads it. -/
structure Fish (α : Type) where
  id : Nat
  physics : FishPhysics α
  behavior : FishBehavior α
  movement : CoreMovement α
  size : FishSize α
  lastUpdateTime : α

/-- The five `Math.random()` draws a single `Fish.update` call can
consume, one field per call site. -/
structure TickRands (α : Type) where
  rSpeedTimer : α
  rMode : α
  rVar : α
  rDirTimer : α
  rDirAngle : α

namespace Fish

variable {α : Type} [LinearOrderedField α]

/-- Embeds `Fish.updateUndulation`: speed-scaled frequency, phase advance, and the
single-subtraction wrap `if (phase > 2π) phase -= 2π`. -/
def updateUndulation (M : MathOps α) (s : Fish α) (dt : α) : Fish α :=
  let sr := s.movement.speed.currentSpeed / 4
  let sm := 1 + sr * (3 / 2)
  let effectiveFrequency := s.movement.undulation.frequency * sm
  let ph := s.movement.undulation.phase + effectiveFrequency * M.pi * 2 * dt
  let ph2 := if M.pi * 2 < ph then ph - M.pi * 2 else ph
  { s with movement.undulation.speedMultiplier := sm,
           movement.undulation.phase := ph2 }

/-- Embeds `Fish.changeSpeedMode`: the weighted draw over
`[RESTING, CRUISING, ACTIVE, BURST]` with weights `[0.2, 0.5, 0.25, 0.05]`
(`random -= weights[i]; if (random <= 0) break`), and
`targetSpeed = (mode + (rVar - 0.5) * 0.3) * size.speedMultiplier`.
If no branch fires (only possible when `1 < r`), the loop ends without a
`break` and the speed state is unchanged. -/
def changeSpeedMode (s : Fish α) (r rVar : α) : Fish α :=
  let pick := fun (m : α) =>
    { s with movement.speed.currentMode := m,
             movement.speed.targetSpeed :=
               (m + (rVar - 1 / 2) * (3 / 10)) * s.size.speedMultiplier }
  if r - 1 / 5 ≤ 0 then pick (1 / 2)
  else if r - 1 / 5 - 1 / 2 ≤ 0 then pick (3 / 2)
  else if r - 1 / 5 - 1 / 2 - 1 / 4 ≤ 0 then pick (5 / 2)
  else if r - 1 / 5 - 1 / 2 - 1 / 4 - 1 / 20 ≤ 0 then pick 4
  else s

/-- Embeds `Fish.updateSpeedVariation`: periodic mode change (threshold
`3 + random()*5` seconds), then the rate-limited transition of
`currentSpeed` toward `targetSpeed` (at most `acceleration*deltaTime`,
with the `0.01` dead band). -/
def updateSpeedVariation (s : Fish α) (dt now rTimer rMode rVar : α) :
    Fish α :=
  let s1 :=
    if 3 + rTimer * 5 < now - s.movement.speed.lastModeChange then
      let s' := changeSpeedMode s rMode rVar
      { s' with movement.speed.lastModeChange := now }
    else s
  let speedDifference :=
    s1.movement.speed.targetSpeed - s1.movement.speed.currentSpeed
  if 1 / 100 < |speedDifference| then
    let maxSpeedChange := s1.movement.speed.acceleration * dt
    let speedChange := jsSign speedDifference * min |speedDifference| maxSpeedChange
    { s1 with movement.speed.currentSpeed :=
        s1.movement.speed.currentSpeed + speedChange }
  else s1

/-- Embeds `Fish.updateRollForTurn`: bank into the turn, with the sign of the
cross product picking the direction and the intensity saturating at a 45°
turn. -/
def updateRollForTurn (M : MathOps α) (s : Fish α)
    (current target : Vec3 α) : Fish α :=
  let crossV := Vec3.cross current target
  let turnDirection := jsSign crossV.y
  let turnAngle := Vec3.angleTo M current target
  let rollIntensity := min (turnAngle / (M.pi / 4)) 1
  { s with movement.roll.targetAngle :=
      -turnDirection * rollIntensity * s.movement.roll.maxRollAngle }

/-- Embeds `Fish.initiateDirectionChange`: new target heading obtained by rotating
the current heading about the vertical axis by `(random()-0.5)*π`. -/
def initiateDirectionChange (M : MathOps α) (s : Fish α) (r : α) : Fish α :=
  let currentAngle := M.atan2 s.movement.direction.currentHeading.x
    s.movement.direction.currentHeading.z
  let turnAngle := (r - 1 / 2) * M.pi
  let newAngle := currentAngle + turnAngle
  { s with movement.direction.targetHeading :=
      Vec3.normalize M ⟨M.sin newAngle, 0, M.cos newAngle⟩,
           movement.direction.isChangingDirection := true }

/-- Embeds `Fish.updateDirectionChanges`: periodic initiation (threshold
`2 + random()*4` seconds when not already turning), then the rate-limited
advance of `currentHeading` toward `targetHeading` with the 0.05 rad
tolerance snap. -/
def updateDirectionChanges (M : MathOps α) (s : Fish α)
    (dt now rTimer rAngle : α) : Fish α :=
  let s1 :=
    if s.movement.direction.isChangingDirection = false ∧
        2 + rTimer * 4 < now - s.movement.direction.lastDirectionChange then
      let s' := initiateDirectionChange M s rAngle
      { s' with movement.direction.lastDirectionChange := now }
    else s
  if s1.movement.direction.isChangingDirection then
    let angleDifference := Vec3.angleTo M s1.movement.direction.currentHeading
      s1.movement.direction.targetHeading
    if 1 / 20 < angleDifference then
      let maxAngleChange := s1.movement.direction.turnRate * dt
      let angleChange := min angleDifference maxAngleChange
      let newHeading := Vec3.normalize M
        (Vec3.lerp s1.movement.direction.currentHeading
          s1.movement.direction.targetHeading (angleChange / angleDifference))
      let s2 := { s1 with movement.direction.currentHeading := newHeading }
      updateRollForTurn M s2 newHeading s2.movement.direction.targetHeading
    else
      { s1 with movement.direction.currentHeading :=
          s1.movement.direction.targetHeading,
                movement.direction.isChangingDirection := false,
                movement.roll.targetAngle := 0 }
  else s1

/-- Embeds `Fish.updateRoll`: rate-limited relaxation of `currentAngle` toward
`targetAngle` (dead band `0.01`), then the clamp to
`[-maxRollAngle, maxRollAngle]`. -/
def updateRoll (s : Fish α) (dt : α) : Fish α :=
  let rollDifference :=
    s.movement.roll.targetAngle - s.movement.roll.currentAngle
  let s1 :=
    if 1 / 100 < |rollDifference| then
      let maxRollChange := s.movement.roll.rollSpeed * dt
      let rollChange := jsSign rollDifference * min |rollDifference| maxRollChange
      { s with movement.roll.currentAngle :=
          s.movement.roll.currentAngle + rollChange }
    else s
  { s1 with movement.roll.currentAngle :=
      (max (-s1.movement.roll.maxRollAngle)
        (min s1.movement.roll.maxRollAngle s1.movement.roll.currentAngle)) }

/-- Embeds `Fish.updateBoundaryAvoidance`: soft per-face avoidance forces with the
urgency flag, the blended target-heading overwrite, the ×1.5 urgent
turn-rate assignment, and the final hard clamp of the position to
`[min+0.5, max-0.5]` on every axis. -/
def updateBoundaryAvoidance (M : MathOps α) (s : Fish α) (bounds : Box3 α) :
    Fish α :=
  let position := s.physics.position
  let avoidanceDistance := s.size.bodyLength * 5
  let urgentDistance := s.size.bodyLength * 2
  let fXmin : α := if position.x - bounds.min.x < avoidanceDistance then
    max 0 ((avoidanceDistance - (position.x - bounds.min.x)) / avoidanceDistance) * 2
    else 0
  let uXmin : Bool := decide (position.x - bounds.min.x < avoidanceDistance) &&
    decide (position.x - bounds.min.x < urgentDistance)
  let fXmax : α := if bounds.max.x - position.x < avoidanceDistance then
    max 0 ((avoidanceDistance - (bounds.max.x - position.x)) / avoidanceDistance) * 2
    else 0
  let uXmax : Bool := decide (bounds.max.x - position.x < avoidanceDistance) &&
    decide (bounds.max.x - position.x < urgentDistance)
  let fYmin : α := if position.y - bounds.min.y < avoidanceDistance then
    max 0 ((avoidanceDistance - (position.y - bounds.min.y)) / avoidanceDistance) * 2
    else 0
  let uYmin : Bool := decide (position.y - bounds.min.y < avoidanceDistance) &&
    decide (position.y - bounds.min.y < urgentDistance)
  let fYmax : α := if bounds.max.y - position.y < avoidanceDistance then
    max 0 ((avoidanceDistance - (bounds.max.y - position.y)) / avoidanceDistance) * 2
    else 0
  let uYmax : Bool := decide (bounds.max.y - position.y < avoidanceDistance) &&
    decide (bounds.max.y - position.y < urgentDistance)
  let fZmin : α := if position.z - bounds.min.z < avoidanceDistance then
    max 0 ((avoidanceDistance - (position.z - bounds.min.z)) / avoidanceDistance) * 2
    else 0
  let uZmin : Bool := decide (position.z - bounds.min.z < avoidanceDistance) &&
    decide (position.z - bounds.min.z < urgentDistance)
  let fZmax : α := if bounds.max.z - position.z < avoidanceDistance then
    max 0 ((avoidanceDistance - (bounds.max.z - position.z)) / avoidanceDistance) * 2
    else 0
  let uZmax : Bool := decide (bounds.max.z - position.z < avoidanceDistance) &&
    decide (bounds.max.z - position.z < urgentDistance)
  let avoidanceForce : Vec3 α := ⟨fXmin - fXmax, fYmin - fYmax, fZmin - fZmax⟩
  let urgentAvoidance : Bool := uXmin || uXmax || uYmin || uYmax || uZmin || uZmax
  let s1 :=
    if 0 < Vec3.len M avoidanceForce then
      let af := Vec3.normalize M avoidanceForce
      let currentHeading := s.movement.direction.currentHeading
      let avoidanceWeight : α := if urgentAvoidance then 4 / 5 else 3 / 10
      let newHeading := Vec3.add (Vec3.smul (1 - avoidanceWeight) currentHeading)
        (Vec3.smul avoidanceWeight af)
      let nh := Vec3.normalize M newHeading
      let s' := { s with movement.direction.targetHeading := nh,
                         movement.direction.isChangingDirection := true }
      if urgentAvoidance then
        { s' with movement.direction.turnRate :=
            s.behavior.maxTurnRate * s.size.turnRateMultiplier * (3 / 2) }
      else s'
    else s
  { s1 with physics.position :=
      ⟨max (bounds.min.x + 1 / 2) (min (bounds.max.x - 1 / 2) s1.physics.position.x),
       max (bounds.min.y + 1 / 2) (min (bounds.max.y - 1 / 2) s1.physics.position.y),
       max (bounds.min.z + 1 / 2) (min (bounds.max.z - 1 / 2) s1.physics.position.z)⟩ }

/-- Embeds `Fish.getNearbyNeighbors`: every other fish (JS `!==`, modelled by the
ghost `id`) within `behavior.neighborRadius`. -/
def getNearbyNeighbors (M : MathOps α) (s : Fish α) (allFish : List (Fish α)) :
    List (Fish α) :=
  let detectionRadius := s.behavior.neighborRadius
  allFish.filter (fun otherFish =>
    !decide (otherFish.id = s.id) &&
    decide (Vec3.distanceTo M s.physics.position otherFish.physics.position ≤
      detectionRadius))

/-- Embeds `Fish.calculateCohesion`: normalized direction from the agent to the
centroid of the given neighbors. -/
def calculateCohesion (M : MathOps α) (s : Fish α) (neighbors : List (Fish α)) :
    Vec3 α :=
  if neighbors.length = 0 then Vec3.zero
  else
    let centerOfMass := Vec3.divScalar (neighbors.length : α)
      (neighbors.foldl (fun acc n => Vec3.add acc n.physics.position) Vec3.zero)
    Vec3.normalize M (Vec3.sub centerOfMass s.physics.position)

/-- Embeds `Fish.calculateSeparation`: distance-weighted push away from each
neighbor strictly closer than `separationRadius` (and at strictly positive
distance), averaged over the contributing neighbors and normalized; the
zero vector when no neighbor contributes. -/
def calculateSeparation (M : MathOps α) (s : Fish α)
    (neighbors : List (Fish α)) : Vec3 α :=
  let acc := neighbors.foldl (fun (acc : Vec3 α × Nat) n =>
    let distance := Vec3.distanceTo M s.physics.position n.physics.position
    if distance < s.behavior.separationRadius ∧ 0 < distance then
      let awayDirection := Vec3.normalize M
        (Vec3.sub s.physics.position n.physics.position)
      let strength := (s.behavior.separationRadius - distance) /
        s.behavior.separationRadius
      (Vec3.add acc.1 (Vec3.smul strength awayDirection), acc.2 + 1)
    else acc) (Vec3.zero, 0)
  if 0 < acc.2 then Vec3.normalize M (Vec3.divScalar (acc.2 : α) acc.1)
  else acc.1

/-- Embeds `Fish.calculateAlignment`: normalized average of the neighbors'
velocities. -/
def calculateAlignment (M : MathOps α) (neighbors : List (Fish α)) : Vec3 α :=
  if neighbors.length = 0 then Vec3.zero
  else
    let averageVelocity := Vec3.divScalar (neighbors.length : α)
      (neighbors.foldl (fun acc n => Vec3.add acc n.physics.velocity) Vec3.zero)
    Vec3.normalize M averageVelocity

/-- Embeds `Fish.applySocialInfluence`: blend of the (normalized) social force
with the current heading by `individualWeight`/`socialWeight`, lerped into
`targetHeading` at rate `0.3*deltaTime`. The source normalizes and scales
`socialForce` in place, so the final `socialForce.length() > 0.5` trigger
reads the socialWeight-scaled unit vector. -/
def applySocialInfluence (M : MathOps α) (s : Fish α) (socialForce : Vec3 α)
    (dt : α) : Fish α :=
  if Vec3.len M socialForce = 0 then s
  else
    let socialHeading := Vec3.normalize M socialForce
    let individualForce :=
      Vec3.smul s.behavior.individualWeight s.movement.direction.currentHeading
    let weightedSocialForce := Vec3.smul s.behavior.socialWeight socialHeading
    let combinedDirection :=
      Vec3.normalize M (Vec3.add individualForce weightedSocialForce)
    let influenceStrength : α := 3 / 10
    let th := Vec3.normalize M (Vec3.lerp s.movement.direction.targetHeading
      combinedDirection (influenceStrength * dt))
    let s1 := { s with movement.direction.targetHeading := th }
    if 1 / 2 < Vec3.len M weightedSocialForce then
      { s1 with movement.direction.isChangingDirection := true }
    else s1

/-- Embeds `Fish.updateFlockingBehavior`: neighbor cull, the three boids forces
scaled by their strengths, and the hand-off to `applySocialInfluence`;
no-op when no neighbor is within `neighborRadius`. -/
def updateFlockingBehavior (M : MathOps α) (s : Fish α)
    (neighbors : List (Fish α)) (dt : α) : Fish α :=
  let nearbyNeighbors := getNearbyNeighbors M s neighbors
  if nearbyNeighbors.length = 0 then s
  else
    let cohesionForce := calculateCohesion M s nearbyNeighbors
    let separationForce := calculateSeparation M s nearbyNeighbors
    let alignmentForce := calculateAlignment M nearbyNeighbors
    let socialForce := Vec3.add (Vec3.add
      (Vec3.smul s.behavior.cohesionStrength cohesionForce)
      (Vec3.smul s.behavior.separationStrength separationForce))
      (Vec3.smul s.behavior.alignmentStrength alignmentForce)
    applySocialInfluence M s socialForce dt

/-- Embeds `Fish.updateVelocityFromHeading`:
`velocity = currentHeading * (currentSpeed * size.bodyLength)`. -/
def updateVelocityFromHeading (s : Fish α) : Fish α :=
  { s with physics.velocity :=
      (Vec3.smul (s.movement.speed.currentSpeed * s.size.bodyLength)
        s.movement.direction.currentHeading) }

/-- Embeds `Fish.updateRotationFromMovement`: yaw from the heading plus the
undulation wag, roll from the roll state. -/
def updateRotationFromMovement (M : MathOps α) (s : Fish α) : Fish α :=
  let heading := s.movement.direction.currentHeading
  let yaw := M.atan2 heading.x heading.z
  let undulationEffect := M.sin s.movement.undulation.phase *
    s.movement.undulation.amplitude * (3 / 10)
  { s with physics.rotation :=
      ⟨s.physics.rotation.x, yaw + undulationEffect,
        s.movement.roll.currentAngle⟩ }

/-- Embeds `Fish.updatePhysics`: velocity from heading and speed, position
integration, rotation projection. -/
def updatePhysics (M : MathOps α) (s : Fish α) (dt : α) : Fish α :=
  let s1 := updateVelocityFromHeading s
  let s2 := { s1 with physics.position :=
      (Vec3.add s1.physics.position (Vec3.smul dt s1.physics.velocity)) }
  updateRotationFromMovement M s2

/-- Embeds `Fish.update`: the full per-tick composition — undulation, speed
variation, direction changes, roll, optional boundary avoidance, optional
flocking (only when the neighbor list is non-empty), physics integration,
and the `lastUpdateTime` bookkeeping. -/
def update (M : MathOps α) (s : Fish α) (dt : α)
    (neighbors : Option (List (Fish α))) (bounds : Option (Box3 α))
    (now : α) (r : TickRands α) : Fish α :=
  let s1 := updateUndulation M s dt
  let s2 := updateSpeedVariation s1 dt now r.rSpeedTimer r.rMode r.rVar
  let s3 := updateDirectionChanges M s2 dt now r.rDirTimer r.rDirAngle
  let s4 := updateRoll s3 dt
  let s5 := match bounds with
    | some b => updateBoundaryAvoidance M s4 b
    | none => s4
  let s6 := match neighbors with
    | some ns => if 0 < ns.length then updateFlockingBehavior M s5 ns dt else s5
    | none => s5
  let s7 := updatePhysics M s6 dt
  { s7 with lastUpdateTime := now }

/-- Embeds `Fish.generateNormalRandom` (Box–Muller):
`√(-2 ln u) * cos(2π v) * stdDev + mean`. The source's `while` loops only
re-draw zero values of `u`, `v`; the parameters stand for the accepted
non-zero draws. -/
def generateNormalRandom (M : MathOps α) (mean stdDev u v : α) : α :=
  M.sqrt (-2 * M.log u) * M.cos (2 * M.pi * v) * stdDev + mean

/-- Embeds `Fish.generateSizeCharacteristics`: bell-curve size factor clamped to
`[0.6, 1.4]` and the inverse, `[0.7, 1.3]`-clamped trait multipliers
`2.0 - scaleFactor`. -/
def generateSizeCharacteristics (M : MathOps α) (baseBodyLength u v : α) :
    FishSize α :=
  let sizeVariation := generateNormalRandom M 0 (1 / 5) u v
  let scaleFactor := max (3 / 5) (min (7 / 5) (1 + sizeVariation))
  let actualBodyLength := baseBodyLength * scaleFactor
  let speedMultiplier := max (7 / 10) (min (13 / 10) (2 - scaleFactor))
  let agilityMultiplier := max (7 / 10) (min (13 / 10) (2 - scaleFactor))
  let turnRateMultiplier := max (7 / 10) (min (13 / 10) (2 - scaleFactor))
  { scaleFactor := scaleFactor, bodyLength := actualBodyLength,
    speedMultiplier := speedMultiplier, agilityMultiplier := agilityMultiplier,
    turnRateMultiplier := turnRateMultiplier }

/-- The `Fish` constructor: size generation, physics with a random initial
yaw, the movement sub-systems seeded from the behavior config scaled by the
size traits (`CRUISING = 1.5` initial mode), and the initial velocity from
`updateVelocityFromHeading`. `rRotY` and `rPhase` are the two
`Math.random()` draws, `u`/`v` the Box–Muller draws, `ctorTime` the
construction wall-clock time. -/
def construct (M : MathOps α) (id : Nat) (position : Vec3 α)
    (behavior : FishBehavior α) (ctorTime rRotY rPhase u v : α) : Fish α :=
  let size := generateSizeCharacteristics M behavior.bodyLength u v
  let s : Fish α :=
    { id := id
      physics :=
        { position := position
          rotation := ⟨0, rRotY * M.pi * 2, 0⟩
          scale := ⟨size.scaleFactor, size.scaleFactor, size.scaleFactor⟩
          velocity := ⟨0, 0, 0⟩ }
      behavior := behavior
      movement :=
        { undulation :=
            { frequency := behavior.undulationFrequency * size.agilityMultiplier
              amplitude := behavior.undulationAmplitude
              phase := rPhase * M.pi * 2
              speedMultiplier := 1 }
          roll :=
            { currentAngle := 0, targetAngle := 0
              rollSpeed := behavior.rollSpeed * size.agilityMultiplier
              maxRollAngle := behavior.maxRollAngle }
          speed :=
            { currentMode := 3 / 2
              targetSpeed := (3 / 2) * size.speedMultiplier
              currentSpeed := (3 / 2) * size.speedMultiplier
              acceleration := behavior.accelerationRate * size.agilityMultiplier
              lastModeChange := ctorTime }
          direction :=
            { currentHeading := ⟨0, 0, 1⟩
              targetHeading := ⟨0, 0, 1⟩
              turnRate := behavior.maxTurnRate * size.turnRateMultiplier
              turnRadius := (5 / 2) * size.bodyLength
              lastDirectionChange := ctorTime
              isChangingDirection := false } }
      size := size
      lastUpdateTime := ctorTime }
  updateVelocityFromHeading s

end Fish

/-! ## Behavior hot-update (FlockManager.updateBehavior)

`updateBehavior(newBehavior: Partial<FishBehavior>)` runs
`Object.assign(fish.behavior, newBehavior)` on every fish: fields present
in the partial record overwrite, absent fields stay. -/

/-- Embeds `Partial<FishBehavior>`: every field optional. -/
structure PartialFishBehavior (α : Type) where
  bodyLength : Option α := none
  maxTurnRate : Option α := none
  maxRollAngle : Option α := none
  rollSpeed : Option α := none
  undulationFrequency : Option α := none
  undulationAmplitude : Option α := none
  accelerationRate : Option α := none
  directionChangeInterval : Option α := none
  turnSmoothness : Option α := none
  neighborRadius : Option α := none
  separationRadius : Option α := none
  cohesionStrength : Option α := none
  separationStrength : Option α := none
  alignmentStrength : Option α := none
  individualWeight : Option α := none
  socialWeight : Option α := none

/-- Embeds `Object.assign(behavior, partial)`. -/
def mergeBehavior {α : Type} (b : FishBehavior α) (p : PartialFishBehavior α) :
    FishBehavior α where
  bodyLength := p.bodyLength.getD b.bodyLength
  maxTurnRate := p.maxTurnRate.getD b.maxTurnRate
  maxRollAngle := p.maxRollAngle.getD b.maxRollAngle
  rollSpeed := p.rollSpeed.getD b.rollSpeed
  undulationFrequency := p.undulationFrequency.getD b.undulationFrequency
  undulationAmplitude := p.undulationAmplitude.getD b.undulationAmplitude
  accelerationRate := p.accelerationRate.getD b.accelerationRate
  directionChangeInterval :=
    p.directionChangeInterval.getD b.directionChangeInterval
  turnSmoothness := p.turnSmoothness.getD b.turnSmoothness
  neighborRadius := p.neighborRadius.getD b.neighborRadius
  separationRadius := p.separationRadius.getD b.separationRadius
  cohesionStrength := p.cohesionStrength.getD b.cohesionStrength
  separationStrength := p.separationStrength.getD b.separationStrength
  alignmentStrength := p.alignmentStrength.getD b.alignmentStrength
  individualWeight := p.individualWeight.getD b.individualWeight
  socialWeight := p.socialWeight.getD b.socialWeight

/-- Embeds `FlockManager.updateBehavior`: merge the partial config into every
fish's behavior record (`this.fish.forEach(fish =>
Object.assign(fish.behavior, newBehavior))`). -/
def updateBehavior {α : Type} (fish : List (Fish α))
    (newBehavior : PartialFishBehavior α) : List (Fish α) :=
  fish.map (fun f => { f with behavior := mergeBehavior f.behavior newBehavior })

/-! ## Boids fish and FlockManager (src/unnamed/part_009 first snapshot and
src/src/systems/FlockManager.ts second snapshot)

The boids `Fish` carries an explicit `id` and `isActive` flag; only the
fields read by the claims' functions (`findNeighbors`, the spatial grid,
`removeFish`, `updateConfig`, `getFish`, `getStats`) are modelled —
`position`, `velocity`, `id`, `isActive`; every function below leaves the
remaining per-fish fields untouched in the source as well. -/

/-- Boids-snapshot fish (`class Fish` of src/unnamed/part_009). -/
structure FishB (α : Type) where
  id : Nat
  position : Vec3 α
  velocity : Vec3 α
  isActive : Bool

/-- Embeds `FlockConfig` (the `behavior` payload is only forwarded to the spawn
function, which absorbs it together with the random spawn positions). -/
structure FlockConfigB (α : Type) where
  fishCount : Nat
  bounds : Box3 α
  spatialPartitioning : Bool
  partitionSize : α

/-- Embeds `Partial<FlockConfig>` as consumed by `updateConfig`. -/
structure PartialFlockConfigB (α : Type) where
  fishCount : Option Nat := none
  bounds : Option (Box3 α) := none
  spatialPartitioning : Option Bool := none
  partitionSize : Option α := none

/-- Embeds `FlockStats` of the second FlockManager snapshot. -/
structure FlockStatsB (α : Type) where
  fishCount : Nat
  averageSpeed : α
  averageCohesion : α
  averageSeparation : α
  averageAlignment : α
  activeFish : Nat

/-- Embeds `FlockManager` state: backing fish array plus config. -/
structure FlockManagerB (α : Type) where
  fish : List (FishB α)
  config : FlockConfigB α

namespace FlockManagerB

variable {α : Type} [LinearOrderedField α]

/-- Boids `Fish.findNeighbors(fish, radius)`: filter keeping every other
active fish within `radius`
(`if (other.id === this.id || !other.isActive) return false`). -/
def fishFindNeighbors (M : MathOps α) (self : FishB α) (fish : List (FishB α))
    (radius : α) : List (FishB α) :=
  fish.filter (fun other =>
    if other.id = self.id ∨ other.isActive = false then false
    else decide (Vec3.distanceTo M self.position other.position ≤ radius))

/-- Grid cell of a position: `floor(coordinate / partitionSize)` per axis;
the source's string key `"x,y,z"` is modelled by the integer triple (the
string encoding is injective on integer triples). -/
def cellOf [FloorRing α] (partitionSize : α) (p : Vec3 α) : ℤ × ℤ × ℤ :=
  (⌊p.x / partitionSize⌋, ⌊p.y / partitionSize⌋, ⌊p.z / partitionSize⌋)

/-- One cell of the spatial grid built by `updateSpatialGrid`: the active
fish whose position falls in the cell, in backing-array order (the map is
populated by one pass pushing each active fish into its cell's list). -/
def spatialGridCell [FloorRing α] (partitionSize : α) (fish : List (FishB α))
    (key : ℤ × ℤ × ℤ) : List (FishB α) :=
  fish.filter (fun f => f.isActive && decide (cellOf partitionSize f.position = key))

/-- The 27 cell offsets visited by the `dx`/`dy`/`dz` loops of
`findNeighborsOptimized`, in loop order. -/
def offsets27 : List (ℤ × ℤ × ℤ) :=
  [-1, 0, 1].flatMap (fun dx =>
    [-1, 0, 1].flatMap (fun dy =>
      [-1, 0, 1].map (fun dz => ((dx : ℤ), (dy : ℤ), (dz : ℤ)))))

/-- Embeds `FlockManager.findNeighborsOptimized`: brute force when spatial
partitioning is off; otherwise collect, over the fish's own and the 26
adjacent grid cells, the other active fish within `radius`. -/
def findNeighborsOptimized [FloorRing α] (M : MathOps α)
    (cfg : FlockConfigB α) (allFish : List (FishB α)) (self : FishB α)
    (radius : α) : List (FishB α) :=
  if cfg.spatialPartitioning = false then
    fishFindNeighbors M self allFish radius
  else
    let base := cellOf cfg.partitionSize self.position
    offsets27.flatMap (fun d =>
      let cellFish := spatialGridCell cfg.partitionSize allFish
        (base.1 + d.1, base.2.1 + d.2.1, base.2.2 + d.2.2)
      cellFish.filter (fun otherFish =>
        !decide (otherFish.id = self.id) && otherFish.isActive &&
        decide (Vec3.distanceTo M self.position otherFish.position ≤ radius)))

/-- Helper for `removeFish`: deactivate the first fish with the given id
(`getFishById` is `fish.find(...)`, and the found object is mutated in
place), reporting whether one was found. -/
def markFirstInactive : List (FishB α) → Nat → List (FishB α) × Bool
  | [], _ => ([], false)
  | f :: rest, fid =>
    if f.id = fid then ({ f with isActive := false } :: rest, true)
    else
      let r := markFirstInactive rest fid
      (f :: r.1, r.2)

/-- Embeds `FlockManager.removeFish(id)`: mark the fish inactive (it stays in the
backing array); `false` when no fish has that id. -/
def removeFish (m : FlockManagerB α) (fid : Nat) : FlockManagerB α × Bool :=
  let r := markFirstInactive m.fish fid
  ({ m with fish := r.1 }, r.2)

/-- Embeds `FlockManager.getFish`: the active fish only. -/
def getFish (m : FlockManagerB α) : List (FishB α) :=
  m.fish.filter (fun f => f.isActive)

/-- Embeds `FlockManager.getStats`: `fishCount` is the backing array length
(`this.fish.length`), `activeFish` counts only active fish, `averageSpeed`
averages `getSpeed()` (= `velocity.length()`) over the active fish, and the
three behavior metrics are the source's placeholders. -/
def getStats (M : MathOps α) (m : FlockManagerB α) : FlockStatsB α :=
  let activeFish := m.fish.filter (fun f => f.isActive)
  let speeds := activeFish.map (fun f => Vec3.len M f.velocity)
  let averageSpeed := if 0 < speeds.length then
    speeds.foldl (· + ·) 0 / (speeds.length : α) else 0
  { fishCount := m.fish.length
    averageSpeed := averageSpeed
    averageCohesion := if 0 < activeFish.length then 1 else 0
    averageSeparation := if 0 < activeFish.length then 1 else 0
    averageAlignment := if 0 < activeFish.length then 1 else 0
    activeFish := activeFish.length }

/-- Helper for `updateConfig` shrink: deactivate the entries with index in
`[newCount, oldCount)` (`for (let i = newCount; i < oldCount; i++)
this.fish[i].isActive = false`), keeping everything else intact. -/
def markFromInactive (newCount : Nat) : Nat → List (FishB α) → List (FishB α)
  | _, [] => []
  | i, f :: rest =>
    (if newCount ≤ i then { f with isActive := false } else f) ::
      markFromInactive newCount (i + 1) rest

/-- Embeds `Object.assign(this.config, newConfig)`. -/
def mergeConfig (c : FlockConfigB α) (p : PartialFlockConfigB α) :
    FlockConfigB α where
  fishCount := p.fishCount.getD c.fishCount
  bounds := p.bounds.getD c.bounds
  spatialPartitioning := p.spatialPartitioning.getD c.spatialPartitioning
  partitionSize := p.partitionSize.getD c.partitionSize

/-- Embeds `FlockManager.updateConfig`: on a changed `fishCount`, grow by pushing
freshly spawned fish (`spawn i` stands for `new Fish(i, randomPosition,
this.config.behavior)`; the random positions are absorbed into the spawn
parameter) or shrink by marking the tail `[newCount, oldCount)` inactive;
then merge the partial config. -/
def updateConfig (m : FlockManagerB α) (p : PartialFlockConfigB α)
    (spawn : Nat → FishB α) : FlockManagerB α :=
  let m1 := match p.fishCount with
    | some newCount =>
      if newCount ≠ m.config.fishCount then
        let oldCount := m.fish.length
        if oldCount < newCount then
          { m with fish := m.fish ++ (List.range' oldCount (newCount - oldCount)).map spawn }
        else if newCount < oldCount then
          { m with fish := markFromInactive newCount 0 m.fish }
        else m
      else m
    | none => m
  { m1 with config := mergeConfig m1.config p }

end FlockManagerB

/-! ## Concrete states used by counterexamples and witnesses -/

/-- Neutral behavior config: unit speed/turn parameters, undulation
switched off (`frequency = 0`), flocking radii 10/2, unit strengths, fully
social blending (`individualWeight = 0`, `socialWeight = 1`). -/
noncomputable def baseBehavior : FishBehavior ℝ where
  bodyLength := 1
  maxTurnRate := 1
  maxRollAngle := 1
  rollSpeed := 1
  undulationFrequency := 0
  undulationAmplitude := 0
  accelerationRate := 1
  directionChangeInterval := 0
  turnSmoothness := 0
  neighborRadius := 10
  separationRadius := 2
  cohesionStrength := 1
  separationStrength := 1
  alignmentStrength := 1
  individualWeight := 0
  socialWeight := 1

/-- Neutral fish state: mid-tank position, unit size traits, cruising at
`1.5` along `+z`, all timers at `0`, not turning. -/
noncomputable def baseFish : Fish ℝ where
  id := 0
  physics :=
    { position := ⟨50, 50, 50⟩
      rotation := ⟨0, 0, 0⟩
      scale := ⟨1, 1, 1⟩
      velocity := ⟨0, 0, 3 / 2⟩ }
  behavior := baseBehavior
  movement :=
    { undulation := { frequency := 0, amplitude := 0, phase := 0, speedMultiplier := 1 }
      roll := { currentAngle := 0, targetAngle := 0, rollSpeed := 1, maxRollAngle := 1 }
      speed := { currentMode := 3 / 2, targetSpeed := 3 / 2, currentSpeed := 3 / 2,
                 acceleration := 1, lastModeChange := 0 }
      direction := { currentHeading := ⟨0, 0, 1⟩, targetHeading := ⟨0, 0, 1⟩,
                     turnRate := 1, turnRadius := 5 / 2, lastDirectionChange := 0,
                     isChangingDirection := false } }
  size := { scaleFactor := 1, bodyLength := 1, speedMultiplier := 1,
            agilityMultiplier := 1, turnRateMultiplier := 1 }
  lastUpdateTime := 0

/-- All five per-tick random draws at `0`. -/
noncomputable def zeroRands : TickRands ℝ := ⟨0, 0, 0, 0, 0⟩

/-- The `[0,100]³` tank. -/
noncomputable def tank100 : Box3 ℝ := ⟨⟨0, 0, 0⟩, ⟨100, 100, 100⟩⟩

/-- The `[0,10]³` tank used by the containment counterexample. -/
noncomputable def tank10 : Box3 ℝ := ⟨⟨0, 0, 0⟩, ⟨10, 10, 10⟩⟩

/-- Containment counterexample fish: body length `0.1` (so the avoidance
zone is only `0.5` deep and stays inactive at `z = 9.4`), swimming at burst
speed `4` straight toward the `z = 10` face. -/
noncomputable def fishC1 : Fish ℝ :=
  { baseFish with
    physics.position := ⟨5, 5, 47 / 5⟩
    movement.speed := { currentMode := 4, targetSpeed := 4, currentSpeed := 4,
                        acceleration := 1, lastModeChange := 0 }
    size := { scaleFactor := 1, bodyLength := 1 / 10, speedMultiplier := 1,
              agilityMultiplier := 1, turnRateMultiplier := 1 } }

/-- Velocity-invariant counterexample fish: body length `2`, speed `1`. -/
noncomputable def fishC4 : Fish ℝ :=
  { baseFish with
    movement.speed := { currentMode := 1, targetSpeed := 1, currentSpeed := 1,
                        acceleration := 1, lastModeChange := 0 }
    size := { scaleFactor := 1, bodyLength := 2, speedMultiplier := 1,
              agilityMultiplier := 1, turnRateMultiplier := 1 } }

/-- Containment-precedence counterexample fish: one body length away from
the `z = 0` face (urgent zone), heading `+z`. -/
noncomputable def fishC3 : Fish ℝ := { baseFish with physics.position := ⟨50, 50, 1⟩ }

/-- Its single neighbor, 3 units along `+x`, at rest. -/
noncomputable def fishC3n : Fish ℝ :=
  { baseFish with
    id := 1
    physics.position := ⟨53, 50, 1⟩
    physics.velocity := ⟨0, 0, 0⟩ }

/-- Undulation counterexample fish: base frequency `2 Hz`, momentarily at
speed `0` and phase `0`. -/
noncomputable def fishC6 : Fish ℝ :=
  { baseFish with
    movement.undulation := { frequency := 2, amplitude := 0, phase := 0,
                             speedMultiplier := 1 }
    movement.speed := { currentMode := 3 / 2, targetSpeed := 0, currentSpeed := 0,
                        acceleration := 1, lastModeChange := 0 } }

/-- Undulation witness fish: base frequency `0.25 Hz`, speed `0`,
phase `0`. -/
noncomputable def fishC6w : Fish ℝ :=
  { baseFish with
    movement.undulation := { frequency := 1 / 4, amplitude := 0, phase := 0,
                             speedMultiplier := 1 }
    movement.speed := { currentMode := 3 / 2, targetSpeed := 0, currentSpeed := 0,
                        acceleration := 1, lastModeChange := 0 } }

/-- Turn-rate counterexample fish: in the urgent zone of the `z = 0` face,
at burst speed `4` heading `+z` (so one `dt = 2` tick carries it past the
whole avoidance zone). -/
noncomputable def fishC7 : Fish ℝ :=
  { baseFish with
    physics.position := ⟨50, 50, 1⟩
    movement.speed := { currentMode := 4, targetSpeed := 4, currentSpeed := 4,
                        acceleration := 1, lastModeChange := 0 } }

/-- Behavior-update counterexample fish, built by the actual constructor
with Box–Muller draws `u = 1`, `v = 0` (zero size variation, so every trait
multiplier is `1`). -/
noncomputable def fishC8 : Fish ℝ :=
  Fish.construct realOps 0 ⟨50, 50, 50⟩ baseBehavior 0 0 0 1 0

/-- Partial behavior update raising `accelerationRate` from `1` to `100`. -/
noncomputable def accelPatch : PartialFishBehavior ℝ := { accelerationRate := some 100 }

/-- Random draws for the behavior-update counterexample tick: speed-mode
timer draw `0`, mode draw `0.99` (BURST), variation draw `0.5` (no
deviation), direction timer draw `0.5`, direction angle draw `0.5` (zero
turn). -/
noncomputable def randsC8 : TickRands ℝ := ⟨0, 99 / 100, 1 / 2, 1 / 2, 1 / 2⟩

/-- Zero-neighbor witness: a neighbor 30 units away (outside the
`neighborRadius = 10`). -/
noncomputable def fishC9far : Fish ℝ :=
  { baseFish with id := 1, physics.position := ⟨80, 50, 50⟩ }

/-- Coincident-neighbor witness: a distinct fish at exactly the same
position. -/
noncomputable def fishC9co : Fish ℝ := { baseFish with id := 2 }

/-- Neighbor-discovery counterexample: querying fish at the origin. -/
noncomputable def fishC5self : FishB ℝ := ⟨0, ⟨0, 0, 0⟩, ⟨0, 0, 0⟩, true⟩

/-- Its active neighbor at distance `3`, three grid cells away. -/
noncomputable def fishC5other : FishB ℝ := ⟨1, ⟨3, 0, 0⟩, ⟨0, 0, 0⟩, true⟩

/-- Grid config with `partitionSize = 1` (smaller than the query radius
`3`) and spatial partitioning on. -/
noncomputable def cfgC5 : FlockConfigB ℝ :=
  { fishCount := 2, bounds := tank100, spatialPartitioning := true,
    partitionSize := 1 }

/-- Flock-manager state for the aggregator claim: three fish, ids
`0`, `1`, `2`, the last already inactive. -/
noncomputable def mgrC10 : FlockManagerB ℝ :=
  { fish := [⟨0, ⟨1, 2, 3⟩, ⟨0, 0, 1⟩, true⟩, ⟨1, ⟨4, 5, 6⟩, ⟨0, 1, 0⟩, true⟩,
             ⟨2, ⟨7, 8, 9⟩, ⟨1, 0, 0⟩, false⟩]
    config := { fishCount := 3, bounds := tank100, spatialPartitioning := false,
                partitionSize := 10 } }

/-- Cells within the 27-cell neighborhood of each other (per-axis floor
indices differing by at most one). -/
def cellAdjacent {α : Type} [LinearOrderedField α] [FloorRing α] (ps : α)
    (a b : Vec3 α) : Prop :=
  |⌊b.x / ps⌋ - ⌊a.x / ps⌋| ≤ 1 ∧ |⌊b.y / ps⌋ - ⌊a.y / ps⌋| ≤ 1 ∧
    |⌊b.z / ps⌋ - ⌊a.z / ps⌋| ≤ 1

/-- The behavior-update counterexample fish after the merge: identical to
the constructed fish except for `behavior.accelerationRate = 100`. -/
noncomputable def fishC8merged : Fish ℝ :=
  { baseFish with behavior.accelerationRate := 100 }

/-- The state the claim would predict after the merge: the same fish with
the movement-level acceleration also at `100`. -/
noncomputable def fishC8fast : Fish ℝ :=
  { baseFish with behavior.accelerationRate := 100,
                  movement.speed.acceleration := 100 }

/-! ## Helper lemmas -/

theorem not_pi_two_lt_zero : ¬ (Real.pi * 2 < 0) :=
  not_lt.mpr (by positivity)

theorem sqrt_eval {a b : ℝ} (hb : 0 ≤ b) (h : b * b = a) : Real.sqrt a = b := by
  rw [← h]; exact Real.sqrt_mul_self hb

/-- Embeds `updatePhysics` establishes the velocity equation and only touches
`physics`. -/
theorem updatePhysics_spec {α : Type} [LinearOrderedField α] (M : MathOps α)
    (s : Fish α) (dt : α) :
    (Fish.updatePhysics M s dt).physics.velocity =
        Vec3.smul (s.movement.speed.currentSpeed * s.size.bodyLength)
          s.movement.direction.currentHeading ∧
      (Fish.updatePhysics M s dt).physics.position =
        Vec3.add s.physics.position
          (Vec3.smul dt (Vec3.smul (s.movement.speed.currentSpeed * s.size.bodyLength)
            s.movement.direction.currentHeading)) ∧
      (Fish.updatePhysics M s dt).movement = s.movement ∧
      (Fish.updatePhysics M s dt).size = s.size ∧
      (Fish.updatePhysics M s dt).behavior = s.behavior := by
  refine ⟨rfl, rfl, rfl, rfl, rfl⟩

/-- Embeds `Fish.update` unfolded into its phase pipeline. -/
theorem update_pipeline {α : Type} [LinearOrderedField α] (M : MathOps α)
    (s : Fish α) (dt : α) (neighbors : Option (List (Fish α)))
    (bounds : Option (Box3 α)) (now : α) (r : TickRands α) :
    Fish.update M s dt neighbors bounds now r =
      { Fish.updatePhysics M
          (match neighbors with
            | some ns =>
              if 0 < ns.length then
                Fish.updateFlockingBehavior M
                  (match bounds with
                    | some b => Fish.updateBoundaryAvoidance M
                        (Fish.updateRoll (Fish.updateDirectionChanges M
                          (Fish.updateSpeedVariation (Fish.updateUndulation M s dt)
                            dt now r.rSpeedTimer r.rMode r.rVar)
                          dt now r.rDirTimer r.rDirAngle) dt) b
                    | none => Fish.updateRoll (Fish.updateDirectionChanges M
                        (Fish.updateSpeedVariation (Fish.updateUndulation M s dt)
                          dt now r.rSpeedTimer r.rMode r.rVar)
                        dt now r.rDirTimer r.rDirAngle) dt) ns dt
              else
                (match bounds with
                  | some b => Fish.updateBoundaryAvoidance M
                      (Fish.updateRoll (Fish.updateDirectionChanges M
                        (Fish.updateSpeedVariation (Fish.updateUndulation M s dt)
                          dt now r.rSpeedTimer r.rMode r.rVar)
                        dt now r.rDirTimer r.rDirAngle) dt) b
                  | none => Fish.updateRoll (Fish.updateDirectionChanges M
                      (Fish.updateSpeedVariation (Fish.updateUndulation M s dt)
                        dt now r.rSpeedTimer r.rMode r.rVar)
                      dt now r.rDirTimer r.rDirAngle) dt)
            | none =>
              (match bounds with
                | some b => Fish.updateBoundaryAvoidance M
                    (Fish.updateRoll (Fish.updateDirectionChanges M
                      (Fish.updateSpeedVariation (Fish.updateUndulation M s dt)
                        dt now r.rSpeedTimer r.rMode r.rVar)
                      dt now r.rDirTimer r.rDirAngle) dt) b
                | none => Fish.updateRoll (Fish.updateDirectionChanges M
                    (Fish.updateSpeedVariation (Fish.updateUndulation M s dt)
                      dt now r.rSpeedTimer r.rMode r.rVar)
                    dt now r.rDirTimer r.rDirAngle) dt)) dt
        with lastUpdateTime := now } := rfl

/-! ## C4 — velocity recomputed from heading and speed each tick -/

/-- C4 (amended): on every `Fish.update` call — any neighbors, any bounds,
any timing and random draws — the returned velocity equals
`currentHeading * (currentSpeed * size.bodyLength)` for the returned
heading and speed, i.e. velocity is recomputed from heading × speed ×
bodyLength every tick and is never an independent integration state. (The
claim's `|velocity| == currentSpeed` only holds scaled by `bodyLength`;
see the counterexample.) -/
theorem C4_velocity_recomputed (s : Fish ℝ) (dt : ℝ)
    (nb : Option (List (Fish ℝ))) (bd : Option (Box3 ℝ)) (now : ℝ)
    (r : TickRands ℝ) :
    (Fish.update realOps s dt nb bd now r).physics.velocity =
      Vec3.smul ((Fish.update realOps s dt nb bd now r).movement.speed.currentSpeed *
          (Fish.update realOps s dt nb bd now r).size.bodyLength)
        ((Fish.update realOps s dt nb bd now r).movement.direction.currentHeading) := by
  cases nb <;> cases bd <;> rfl

/-- C4 counterexample: a fish of body length `2` travelling at
`currentSpeed = 1` ends the tick with `|velocity| = 2 ≠ 1 = currentSpeed`,
so the claimed invariant `|velocity| == currentSpeed` fails whenever
`bodyLength ≠ 1`. -/
theorem C4_norm_velocity_ne_speed :
    Vec3.len realOps (Fish.update realOps fishC4 1 none none 0 zeroRands).physics.velocity = 2 ∧
      (Fish.update realOps fishC4 1 none none 0 zeroRands).movement.speed.currentSpeed = 1 ∧
      (2 : ℝ) ≠ 1 := by
  have hupd : Fish.update realOps fishC4 1 none none 0 zeroRands =
      { fishC4 with
        movement.undulation.speedMultiplier := 1 + 1 / 4 * (3 / 2)
        movement.roll.currentAngle := 0
        physics.velocity := ⟨0, 0, 2⟩
        physics.position := ⟨50, 50, 52⟩
        physics.rotation := ⟨0, realOps.atan2 0 1 + realOps.sin 0 * 0 * (3 / 10), 0⟩
        lastUpdateTime := 0 } := by
    norm_num [Fish.update, Fish.updateUndulation, Fish.updateSpeedVariation,
      Fish.changeSpeedMode, Fish.updateDirectionChanges, Fish.updateRoll,
      Fish.updatePhysics, Fish.updateVelocityFromHeading,
      Fish.updateRotationFromMovement, fishC4, baseFish, baseBehavior,
      zeroRands, realOps, jsSign, Vec3.smul, Vec3.add, not_pi_two_lt_zero]
  rw [hupd]
  refine ⟨?_, rfl, by norm_num⟩
  show Real.sqrt (0 * 0 + 0 * 0 + 2 * 2) = 2
  exact sqrt_eval (by norm_num) (by norm_num)

/-! ## C2 — speed-mode update -/

theorem changeSpeedMode_currentSpeed {α : Type} [LinearOrderedField α]
    (s : Fish α) (r rv : α) :
    (Fish.changeSpeedMode s r rv).movement.speed.currentSpeed =
      s.movement.speed.currentSpeed := by
  unfold Fish.changeSpeedMode; split_ifs <;> rfl

theorem changeSpeedMode_acceleration {α : Type} [LinearOrderedField α]
    (s : Fish α) (r rv : α) :
    (Fish.changeSpeedMode s r rv).movement.speed.acceleration =
      s.movement.speed.acceleration := by
  unfold Fish.changeSpeedMode; split_ifs <;> rfl

theorem jsSign_mul_le {α : Type} [LinearOrderedField α] (d m : α)
    (hm : 0 ≤ m) : |jsSign d * m| ≤ m := by
  unfold jsSign
  split_ifs <;> simp [abs_of_nonneg hm, hm]

/-- C2 (amended): a speed-mode change draws RESTING/CRUISING/ACTIVE/BURST
on the uniform draw ranges `[0,0.2]`, `(0.2,0.7]`, `(0.7,0.95]`,
`(0.95,1)` — i.e. with weights 0.2/0.5/0.25/0.05 — and sets
`targetSpeed = (modeValue + δ) * traits.speedMultiplier` with the
**additive** perturbation `δ = (rv-0.5)*0.3 ∈ [-0.15, 0.15]` BL/s (not the
claimed multiplicative factor in `[0.85, 1.15]`; see the counterexample);
the mode-change timer fires exactly when more than `3 + rTimer*5 ∈ [3,8)`
seconds have elapsed; and on every tick `currentSpeed` moves by at most
`acceleration * deltaTime`. -/
theorem C2_speed_mode_update (s : Fish ℝ) (r rv dt now rT rM rV : ℝ)
    (h0 : 0 ≤ r) (h1 : r < 1) (hdt : 0 ≤ dt)
    (hacc : 0 ≤ s.movement.speed.acceleration) :
    ((Fish.changeSpeedMode s r rv).movement.speed.currentMode = 1 / 2 ↔ r ≤ 1 / 5) ∧
      ((Fish.changeSpeedMode s r rv).movement.speed.currentMode = 3 / 2 ↔
        1 / 5 < r ∧ r ≤ 7 / 10) ∧
      ((Fish.changeSpeedMode s r rv).movement.speed.currentMode = 5 / 2 ↔
        7 / 10 < r ∧ r ≤ 19 / 20) ∧
      ((Fish.changeSpeedMode s r rv).movement.speed.currentMode = 4 ↔ 19 / 20 < r) ∧
      (Fish.changeSpeedMode s r rv).movement.speed.targetSpeed =
        ((Fish.changeSpeedMode s r rv).movement.speed.currentMode +
          (rv - 1 / 2) * (3 / 10)) * s.size.speedMultiplier ∧
      (Fish.updateSpeedVariation s dt now rT rM rV).movement.speed.lastModeChange =
        (if 3 + rT * 5 < now - s.movement.speed.lastModeChange then now
          else s.movement.speed.lastModeChange) ∧
      |(Fish.updateSpeedVariation s dt now rT rM rV).movement.speed.currentSpeed -
          s.movement.speed.currentSpeed| ≤ s.movement.speed.acceleration * dt := by
  have hadm : 0 ≤ s.movement.speed.acceleration * dt := mul_nonneg hacc hdt
  refine ⟨?_, ?_, ?_, ?_, ?_, ?_, ?_⟩
  · unfold Fish.changeSpeedMode
    split_ifs with a b c d <;> norm_num <;> try linarith
  · unfold Fish.changeSpeedMode
    split_ifs with a b c d <;> norm_num <;>
      first
        | (intro h; linarith)
        | (constructor <;> intro <;> linarith)
        | (exact ⟨by linarith, by linarith⟩)
  · unfold Fish.changeSpeedMode
    split_ifs with a b c d <;> norm_num <;>
      first
        | (intro h; linarith)
        | (constructor <;> intro <;> linarith)
        | (exact ⟨by linarith, by linarith⟩)
  · unfold Fish.changeSpeedMode
    split_ifs with a b c d <;> norm_num <;> try linarith
  · unfold Fish.changeSpeedMode
    split_ifs with a b c d <;> first | rfl | linarith
  · unfold Fish.updateSpeedVariation
    simp only [changeSpeedMode_currentSpeed]
    split_ifs <;> rfl
  · unfold Fish.updateSpeedVariation
    simp only [changeSpeedMode_currentSpeed, changeSpeedMode_acceleration]
    split_ifs with hta htr <;>
      first
        | (simp only [add_sub_cancel_left]
           exact le_trans (jsSign_mul_le _ _ (le_min (abs_nonneg _) hadm))
             (min_le_right _ _))
        | (simp only [sub_self, abs_zero]; exact hadm)

/-- C2 counterexample: a mode change into RESTING (`draw 0.1 ≤ 0.2`) with
variation draw `0` yields `targetSpeed = (0.5 - 0.15) * 1 = 0.35`, which is
strictly below `0.5 * 0.85 * speedMultiplier = 0.425`, the smallest value
the claimed multiplicative rule `mode * [0.85,1.15] * multiplier` can
produce: the source's ±0.15 BL/s variation is additive, not ±15 % of the
mode value. -/
theorem C2_variation_additive_not_multiplicative :
    (Fish.changeSpeedMode baseFish (1 / 10) 0).movement.speed.currentMode = 1 / 2 ∧
      (Fish.changeSpeedMode baseFish (1 / 10) 0).movement.speed.targetSpeed = 7 / 20 ∧
      baseFish.size.speedMultiplier = 1 ∧
      (7 / 20 : ℝ) < 1 / 2 * (17 / 20) * 1 := by
  refine ⟨?_, ?_, rfl, by norm_num⟩ <;>
    norm_num [Fish.changeSpeedMode, baseFish, baseBehavior]

/-- C2 witness: the amended theorem applied at draw `r = 0.1`, `rv = 0`,
`dt = 1` on the neutral fish. -/
theorem C2_speed_mode_update_witness :
    ((Fish.changeSpeedMode baseFish (1 / 10) 0).movement.speed.currentMode = 1 / 2) ∧
      |(Fish.updateSpeedVariation baseFish 1 0 0 0 0).movement.speed.currentSpeed -
          baseFish.movement.speed.currentSpeed| ≤
        baseFish.movement.speed.acceleration * 1 := by
  have h := C2_speed_mode_update baseFish (1 / 10) 0 1 0 0 0 0 (by norm_num)
    (by norm_num) (by norm_num) (by norm_num [baseFish])
  exact ⟨h.1.mpr (by norm_num), h.2.2.2.2.2.2⟩

/-! ## C6 — undulation phase wrap -/

/-- C6 (amended): starting from `phase ∈ [0, 2π]`, if the tick's phase
increment `frequency * (1 + currentSpeed/4 * 1.5) * π * 2 * deltaTime` is
nonnegative and at most `2π`, the undulation update leaves the phase in the
**closed** interval `[0, 2π]` (the right endpoint is attainable, because
the wrap `if (phase > 2π) phase -= 2π` keeps `phase = 2π` as is — see the
counterexample for the claimed half-open `[0, 2π)`), and the new phase is
the monotone advance `phase + increment`, wrapped by a single `2π`
subtraction at most. -/
theorem C6_phase_wrap (s : Fish ℝ) (dt : ℝ)
    (hp0 : 0 ≤ s.movement.undulation.phase)
    (hp2 : s.movement.undulation.phase ≤ Real.pi * 2)
    (hinc0 : 0 ≤ s.movement.undulation.frequency *
      (1 + s.movement.speed.currentSpeed / 4 * (3 / 2)) * Real.pi * 2 * dt)
    (hinc2 : s.movement.undulation.frequency *
      (1 + s.movement.speed.currentSpeed / 4 * (3 / 2)) * Real.pi * 2 * dt ≤
        Real.pi * 2) :
    (0 ≤ (Fish.updateUndulation realOps s dt).movement.undulation.phase ∧
      (Fish.updateUndulation realOps s dt).movement.undulation.phase ≤
        Real.pi * 2) ∧
      ((Fish.updateUndulation realOps s dt).movement.undulation.phase =
          s.movement.undulation.phase + s.movement.undulation.frequency *
            (1 + s.movement.speed.currentSpeed / 4 * (3 / 2)) * Real.pi * 2 * dt ∨
        (Fish.updateUndulation realOps s dt).movement.undulation.phase =
          s.movement.undulation.phase + s.movement.undulation.frequency *
            (1 + s.movement.speed.currentSpeed / 4 * (3 / 2)) * Real.pi * 2 * dt -
            Real.pi * 2) := by
  simp only [Fish.updateUndulation, realOps]
  split_ifs with h
  · exact ⟨⟨by linarith, by linarith⟩, Or.inr rfl⟩
  · exact ⟨⟨by linarith, by linarith [not_lt.mp h]⟩, Or.inl rfl⟩

/-- C6 counterexample: with base frequency `2 Hz`, speed `0`, phase `0` and
`deltaTime = 1 s` the increment is `4π`; the single subtraction leaves the
phase at exactly `2π`, which is **not** in the claimed half-open interval
`[0, 2π)`. -/
theorem C6_phase_can_reach_two_pi :
    (Fish.updateUndulation realOps fishC6 1).movement.undulation.phase =
        Real.pi * 2 ∧
      ¬ ((Fish.updateUndulation realOps fishC6 1).movement.undulation.phase <
        Real.pi * 2) := by
  have hval : (Fish.updateUndulation realOps fishC6 1).movement.undulation.phase =
      Real.pi * 2 := by
    simp only [Fish.updateUndulation, realOps, fishC6, baseFish, baseBehavior]
    split_ifs with h
    · ring_nf
    · exfalso
      ring_nf at h
      nlinarith [Real.pi_pos]
  exact ⟨hval, by rw [hval]; exact lt_irrefl _⟩

/-- C6 witness: the amended theorem applied to a fish with base frequency
`0.25 Hz` at speed `0`, phase `0`, over a one-second tick. -/
theorem C6_phase_wrap_witness :
    0 ≤ (Fish.updateUndulation realOps fishC6w 1).movement.undulation.phase ∧
      (Fish.updateUndulation realOps fishC6w 1).movement.undulation.phase ≤
        Real.pi * 2 :=
  (C6_phase_wrap fishC6w 1
    (by norm_num [fishC6w, baseFish])
    (by norm_num [fishC6w, baseFish]; positivity)
    (by norm_num [fishC6w, baseFish]; positivity)
    (by norm_num [fishC6w, baseFish]; nlinarith [Real.pi_pos])).1

/-! ## C1 — boundary containment -/

set_option maxHeartbeats 1000000 in
/-- Embeds `updateBoundaryAvoidance` always ends by clamping the position to
`[min + 0.5, max - 0.5]` per axis (the steering branch never moves the
position). -/
theorem boundary_position {α : Type} [LinearOrderedField α] (M : MathOps α)
    (s : Fish α) (b : Box3 α) :
    (Fish.updateBoundaryAvoidance M s b).physics.position =
      ⟨max (b.min.x + 1 / 2) (min (b.max.x - 1 / 2) s.physics.position.x),
       max (b.min.y + 1 / 2) (min (b.max.y - 1 / 2) s.physics.position.y),
       max (b.min.z + 1 / 2) (min (b.max.z - 1 / 2) s.physics.position.z)⟩ := by
  simp only [Fish.updateBoundaryAvoidance]
  split_ifs <;> rfl

/-- The flocking step never touches the physics state (it only steers the
target heading). -/
theorem flocking_preserves_physics {α : Type} [LinearOrderedField α]
    (M : MathOps α) (s : Fish α) (ns : List (Fish α)) (dt : α) :
    (Fish.updateFlockingBehavior M s ns dt).physics = s.physics := by
  simp only [Fish.updateFlockingBehavior, Fish.applySocialInfluence]
  split_ifs <;> rfl

/-- Integrating after the clamp keeps each coordinate within the clamp
interval widened by the per-axis displacement `|velocity| * dt`. -/
theorem updatePhysics_containment (u : Fish ℝ) (b : Box3 ℝ) (dt : ℝ)
    (hdt : 0 ≤ dt)
    (h1 : b.min.x + 1 / 2 ≤ u.physics.position.x)
    (h2 : u.physics.position.x ≤ b.max.x - 1 / 2)
    (h3 : b.min.y + 1 / 2 ≤ u.physics.position.y)
    (h4 : u.physics.position.y ≤ b.max.y - 1 / 2)
    (h5 : b.min.z + 1 / 2 ≤ u.physics.position.z)
    (h6 : u.physics.position.z ≤ b.max.z - 1 / 2) :
    (b.min.x + 1 / 2 -
          |(Fish.updatePhysics realOps u dt).physics.velocity.x| * dt ≤
        (Fish.updatePhysics realOps u dt).physics.position.x ∧
      (Fish.updatePhysics realOps u dt).physics.position.x ≤
        b.max.x - 1 / 2 + |(Fish.updatePhysics realOps u dt).physics.velocity.x| * dt) ∧
    (b.min.y + 1 / 2 -
          |(Fish.updatePhysics realOps u dt).physics.velocity.y| * dt ≤
        (Fish.updatePhysics realOps u dt).physics.position.y ∧
      (Fish.updatePhysics realOps u dt).physics.position.y ≤
        b.max.y - 1 / 2 + |(Fish.updatePhysics realOps u dt).physics.velocity.y| * dt) ∧
    (b.min.z + 1 / 2 -
          |(Fish.updatePhysics realOps u dt).physics.velocity.z| * dt ≤
        (Fish.updatePhysics realOps u dt).physics.position.z ∧
      (Fish.updatePhysics realOps u dt).physics.position.z ≤
        b.max.z - 1 / 2 + |(Fish.updatePhysics realOps u dt).physics.velocity.z| * dt) := by
  have ex : (Fish.updatePhysics realOps u dt).physics.position.x =
      u.physics.position.x + dt * (Fish.updatePhysics realOps u dt).physics.velocity.x := rfl
  have ey : (Fish.updatePhysics realOps u dt).physics.position.y =
      u.physics.position.y + dt * (Fish.updatePhysics realOps u dt).physics.velocity.y := rfl
  have ez : (Fish.updatePhysics realOps u dt).physics.position.z =
      u.physics.position.z + dt * (Fish.updatePhysics realOps u dt).physics.velocity.z := rfl
  have bx1 := mul_le_mul_of_nonneg_left
    (le_abs_self (Fish.updatePhysics realOps u dt).physics.velocity.x) hdt
  have bx2 := mul_le_mul_of_nonneg_left
    (neg_abs_le (Fish.updatePhysics realOps u dt).physics.velocity.x) hdt
  have by1 := mul_le_mul_of_nonneg_left
    (le_abs_self (Fish.updatePhysics realOps u dt).physics.velocity.y) hdt
  have by2 := mul_le_mul_of_nonneg_left
    (neg_abs_le (Fish.updatePhysics realOps u dt).physics.velocity.y) hdt
  have bz1 := mul_le_mul_of_nonneg_left
    (le_abs_self (Fish.updatePhysics realOps u dt).physics.velocity.z) hdt
  have bz2 := mul_le_mul_of_nonneg_left
    (neg_abs_le (Fish.updatePhysics realOps u dt).physics.velocity.z) hdt
  refine ⟨⟨?_, ?_⟩, ⟨?_, ?_⟩, ⟨?_, ?_⟩⟩ <;>
    simp only [ex, ey, ez] <;>
    linarith [bx1, bx2, by1, by2, bz1, bz2, h1, h2, h3, h4, h5, h6]

/-- C1 (amended): when `update` is called with bounds whose margin interval
`[min+0.5, max-0.5]` is non-empty and a nonnegative `deltaTime`, the
returned position lies, on every axis, within `[min + 0.5 - |v|*dt,
max - 0.5 + |v|*dt]` where `v` is that axis' component of the returned
velocity: the hard clamp runs **before** the position integration, so the
tick can overshoot the bounds by up to the displacement `|velocity|*dt`,
and containment in `[min, max]` holds only when that per-axis displacement
is at most the `0.5` margin — not "regardless of how large currentSpeed
and deltaTime are" (see the counterexample). -/
theorem C1_clamp_before_integration (s : Fish ℝ) (dt now : ℝ)
    (nb : Option (List (Fish ℝ))) (b : Box3 ℝ) (r : TickRands ℝ)
    (hdt : 0 ≤ dt)
    (hbx : b.min.x + 1 / 2 ≤ b.max.x - 1 / 2)
    (hby : b.min.y + 1 / 2 ≤ b.max.y - 1 / 2)
    (hbz : b.min.z + 1 / 2 ≤ b.max.z - 1 / 2) :
    (b.min.x + 1 / 2 -
          |(Fish.update realOps s dt nb (some b) now r).physics.velocity.x| * dt ≤
        (Fish.update realOps s dt nb (some b) now r).physics.position.x ∧
      (Fish.update realOps s dt nb (some b) now r).physics.position.x ≤
        b.max.x - 1 / 2 +
          |(Fish.update realOps s dt nb (some b) now r).physics.velocity.x| * dt) ∧
    (b.min.y + 1 / 2 -
          |(Fish.update realOps s dt nb (some b) now r).physics.velocity.y| * dt ≤
        (Fish.update realOps s dt nb (some b) now r).physics.position.y ∧
      (Fish.update realOps s dt nb (some b) now r).physics.position.y ≤
        b.max.y - 1 / 2 +
          |(Fish.update realOps s dt nb (some b) now r).physics.velocity.y| * dt) ∧
    (b.min.z + 1 / 2 -
          |(Fish.update realOps s dt nb (some b) now r).physics.velocity.z| * dt ≤
        (Fish.update realOps s dt nb (some b) now r).physics.position.z ∧
      (Fish.update realOps s dt nb (some b) now r).physics.position.z ≤
        b.max.z - 1 / 2 +
          |(Fish.update realOps s dt nb (some b) now r).physics.velocity.z| * dt) := by
  have clampmem : ∀ (lo hi p : ℝ), lo ≤ hi →
      lo ≤ max lo (min hi p) ∧ max lo (min hi p) ≤ hi := by
    intro lo hi p hlh
    exact ⟨le_max_left _ _, max_le hlh (min_le_left _ _)⟩
  cases nb with
  | none =>
    rw [update_pipeline]
    have hb := boundary_position realOps
      (Fish.updateRoll (Fish.updateDirectionChanges realOps
        (Fish.updateSpeedVariation (Fish.updateUndulation realOps s dt)
          dt now r.rSpeedTimer r.rMode r.rVar)
        dt now r.rDirTimer r.rDirAngle) dt) b
    refine updatePhysics_containment _ b dt hdt ?_ ?_ ?_ ?_ ?_ ?_ <;>
      rw [hb] <;>
      first
        | exact (clampmem _ _ _ hbx).1
        | exact (clampmem _ _ _ hbx).2
        | exact (clampmem _ _ _ hby).1
        | exact (clampmem _ _ _ hby).2
        | exact (clampmem _ _ _ hbz).1
        | exact (clampmem _ _ _ hbz).2
  | some ns =>
    rw [update_pipeline]
    by_cases hlen : 0 < ns.length
    · simp only [if_pos hlen]
      have hb := boundary_position realOps
        (Fish.updateRoll (Fish.updateDirectionChanges realOps
          (Fish.updateSpeedVariation (Fish.updateUndulation realOps s dt)
            dt now r.rSpeedTimer r.rMode r.rVar)
          dt now r.rDirTimer r.rDirAngle) dt) b
      have hf := flocking_preserves_physics realOps
        (Fish.updateBoundaryAvoidance realOps
          (Fish.updateRoll (Fish.updateDirectionChanges realOps
            (Fish.updateSpeedVariation (Fish.updateUndulation realOps s dt)
              dt now r.rSpeedTimer r.rMode r.rVar)
            dt now r.rDirTimer r.rDirAngle) dt) b) ns dt
      refine updatePhysics_containment _ b dt hdt ?_ ?_ ?_ ?_ ?_ ?_ <;>
        rw [show (Fish.updateFlockingBehavior realOps
            (Fish.updateBoundaryAvoidance realOps
              (Fish.updateRoll (Fish.updateDirectionChanges realOps
                (Fish.updateSpeedVariation (Fish.updateUndulation realOps s dt)
                  dt now r.rSpeedTimer r.rMode r.rVar)
                dt now r.rDirTimer r.rDirAngle) dt) b) ns dt).physics.position =
            (Fish.updateBoundaryAvoidance realOps
              (Fish.updateRoll (Fish.updateDirectionChanges realOps
                (Fish.updateSpeedVariation (Fish.updateUndulation realOps s dt)
                  dt now r.rSpeedTimer r.rMode r.rVar)
                dt now r.rDirTimer r.rDirAngle) dt) b).physics.position
          from congrArg FishPhysics.position hf] <;>
        rw [hb] <;>
        first
          | exact (clampmem _ _ _ hbx).1
          | exact (clampmem _ _ _ hbx).2
          | exact (clampmem _ _ _ hby).1
          | exact (clampmem _ _ _ hby).2
          | exact (clampmem _ _ _ hbz).1
          | exact (clampmem _ _ _ hbz).2
    · simp only [if_neg hlen]
      have hb := boundary_position realOps
        (Fish.updateRoll (Fish.updateDirectionChanges realOps
          (Fish.updateSpeedVariation (Fish.updateUndulation realOps s dt)
            dt now r.rSpeedTimer r.rMode r.rVar)
          dt now r.rDirTimer r.rDirAngle) dt) b
      refine updatePhysics_containment _ b dt hdt ?_ ?_ ?_ ?_ ?_ ?_ <;>
        rw [hb] <;>
        first
          | exact (clampmem _ _ _ hbx).1
          | exact (clampmem _ _ _ hbx).2
          | exact (clampmem _ _ _ hby).1
          | exact (clampmem _ _ _ hby).2
          | exact (clampmem _ _ _ hbz).1
          | exact (clampmem _ _ _ hbz).2

/-- C1 counterexample: in the `[0,10]³` tank, a fish of body length `0.1`
at `(5, 5, 9.4)` heading `+z` at burst speed `4` — outside every avoidance
zone, so no steering fires — ends an `update` with `deltaTime = 10` at
`z = 13.4 > 10`: the call returns with the position outside
`[bounds.min, bounds.max]`, because the hard clamp runs before the
integration step. -/
theorem C1_position_escapes_bounds :
    (Fish.update realOps fishC1 10 none (some tank10) 0 zeroRands).physics.position.z =
        67 / 5 ∧
      tank10.max.z = 10 ∧ ¬ ((67 : ℝ) / 5 ≤ 10) := by
  refine ⟨?_, rfl, by norm_num⟩
  have hpipe : Fish.update realOps fishC1 10 none (some tank10) 0 zeroRands =
      { Fish.updatePhysics realOps
          (Fish.updateBoundaryAvoidance realOps
            (Fish.updateRoll (Fish.updateDirectionChanges realOps
              (Fish.updateSpeedVariation (Fish.updateUndulation realOps fishC1 10)
                10 0 0 0 0) 10 0 0 0) 10) tank10) 10
        with lastUpdateTime := 0 } := rfl
  have h1 : Fish.updateUndulation realOps fishC1 10 =
      { fishC1 with movement.undulation.speedMultiplier := 5 / 2 } := by
    simp only [Fish.updateUndulation, realOps]
    norm_num [fishC1, baseFish, baseBehavior, not_pi_two_lt_zero]
  have h2 : Fish.updateSpeedVariation
      ({ fishC1 with movement.undulation.speedMultiplier := 5 / 2 }) 10 0 0 0 0 =
      { fishC1 with movement.undulation.speedMultiplier := 5 / 2 } := by
    simp only [Fish.updateSpeedVariation]
    norm_num [fishC1, baseFish, baseBehavior]
  have h3 : Fish.updateDirectionChanges realOps
      ({ fishC1 with movement.undulation.speedMultiplier := 5 / 2 }) 10 0 0 0 =
      { fishC1 with movement.undulation.speedMultiplier := 5 / 2 } := by
    simp only [Fish.updateDirectionChanges]
    norm_num [fishC1, baseFish, baseBehavior]
  have h4 : Fish.updateRoll
      ({ fishC1 with movement.undulation.speedMultiplier := 5 / 2 }) 10 =
      { fishC1 with movement.undulation.speedMultiplier := 5 / 2 } := by
    simp only [Fish.updateRoll]
    norm_num [fishC1, baseFish, baseBehavior]
  have h5 : Fish.updateBoundaryAvoidance realOps
      ({ fishC1 with movement.undulation.speedMultiplier := 5 / 2 }) tank10 =
      { fishC1 with movement.undulation.speedMultiplier := 5 / 2 } := by
    simp only [Fish.updateBoundaryAvoidance, realOps]
    norm_num [fishC1, baseFish, baseBehavior, tank10, Vec3.len, Vec3.normSq,
      Real.sqrt_zero]
  rw [hpipe, h1, h2, h3, h4, h5]
  show (Fish.updatePhysics realOps
      ({ fishC1 with movement.undulation.speedMultiplier := 5 / 2 }) 10).physics.position.z = 67 / 5
  simp only [Fish.updatePhysics, Fish.updateVelocityFromHeading,
    Fish.updateRotationFromMovement]
  norm_num [fishC1, baseFish, baseBehavior, Vec3.add, Vec3.smul]

/-- C1 witness: the amended theorem applied to the neutral fish in the
`[0,100]³` tank over a one-second tick. -/
theorem C1_clamp_before_integration_witness :
    tank100.min.z + 1 / 2 -
        |(Fish.update realOps baseFish 1 none (some tank100) 0 zeroRands).physics.velocity.z| * 1 ≤
      (Fish.update realOps baseFish 1 none (some tank100) 0 zeroRands).physics.position.z :=
  ((C1_clamp_before_integration baseFish 1 0 none tank100 zeroRands
    (by norm_num) (by norm_num [tank100]) (by norm_num [tank100])
    (by norm_num [tank100])).2.2).1

/-! ## C7 — urgent turn-rate scaling -/

set_option maxHeartbeats 1000000 in
/-- C7 (amended): the boundary-avoidance step either leaves `turnRate`
unchanged or **assigns** it the fixed value
`maxTurnRate * turnRateMultiplier * 1.5`; the scaling therefore never
compounds across ticks. It is, however, not temporary: no code path
restores the base value on ticks outside the urgent zone, so once scaled
the turn rate stays at 1.5× the base (see the counterexample). -/
theorem C7_turn_rate_assigned_not_compounded {α : Type} [LinearOrderedField α]
    (M : MathOps α) (s : Fish α) (b : Box3 α) :
    (Fish.updateBoundaryAvoidance M s b).movement.direction.turnRate =
        s.movement.direction.turnRate ∨
      (Fish.updateBoundaryAvoidance M s b).movement.direction.turnRate =
        s.behavior.maxTurnRate * s.size.turnRateMultiplier * (3 / 2) := by
  simp only [Fish.updateBoundaryAvoidance]
  split_ifs <;> first | exact Or.inl rfl | exact Or.inr rfl

/-- C7 counterexample: in the `[0,100]³` tank a fish one unit from the
`z = 0` face (urgent) gets `turnRate := 1.5` on tick one; the same tick
carries it to `z = 9`, outside every avoidance zone, yet after tick two —
a tick on which it is not in the urgent zone — its `turnRate` is still
`1.5`, not the base value `maxTurnRate * turnRateMultiplier = 1`. -/
theorem C7_turn_rate_not_restored :
    (Fish.update realOps fishC7 2 none (some tank100) 0 zeroRands).physics.position =
        ⟨50, 50, 9⟩ ∧
      (Fish.update realOps
          (Fish.update realOps fishC7 2 none (some tank100) 0 zeroRands)
          2 none (some tank100) 0 zeroRands).movement.direction.turnRate = 3 / 2 ∧
      fishC7.behavior.maxTurnRate * fishC7.size.turnRateMultiplier = 1 ∧
      (3 / 2 : ℝ) ≠ 1 := by
  have hs64 : Real.sqrt (64 / 25) = 8 / 5 := sqrt_eval (by norm_num) (by norm_num)
  have hargone : (⟨1, 0⟩ : ℂ).arg = 0 := by
    have h : (⟨1, 0⟩ : ℂ) = 1 := rfl
    rw [h, Complex.arg_one]
  have h1 : Fish.updateUndulation realOps fishC7 2 =
      { fishC7 with movement.undulation.speedMultiplier := 5 / 2 } := by
    simp only [Fish.updateUndulation, realOps]
    norm_num [fishC7, baseFish, baseBehavior, not_pi_two_lt_zero]
  have h2 : Fish.updateSpeedVariation
      ({ fishC7 with movement.undulation.speedMultiplier := 5 / 2 }) 2 0 0 0 0 =
      { fishC7 with movement.undulation.speedMultiplier := 5 / 2 } := by
    simp only [Fish.updateSpeedVariation]
    norm_num [fishC7, baseFish, baseBehavior]
  have h3 : Fish.updateDirectionChanges realOps
      ({ fishC7 with movement.undulation.speedMultiplier := 5 / 2 }) 2 0 0 0 =
      { fishC7 with movement.undulation.speedMultiplier := 5 / 2 } := by
    simp only [Fish.updateDirectionChanges]
    norm_num [fishC7, baseFish, baseBehavior]
  have h4 : Fish.updateRoll
      ({ fishC7 with movement.undulation.speedMultiplier := 5 / 2 }) 2 =
      { fishC7 with movement.undulation.speedMultiplier := 5 / 2 } := by
    simp only [Fish.updateRoll]
    norm_num [fishC7, baseFish, baseBehavior]
  have h5 : Fish.updateBoundaryAvoidance realOps
      ({ fishC7 with movement.undulation.speedMultiplier := 5 / 2 }) tank100 =
      { fishC7 with
        movement.undulation.speedMultiplier := 5 / 2
        movement.direction.isChangingDirection := true
        movement.direction.turnRate := 3 / 2 } := by
    simp only [Fish.updateBoundaryAvoidance, realOps, Vec3.len, Vec3.normSq,
      Vec3.normalize, Vec3.divScalar, Vec3.smul, Vec3.add]
    norm_num [fishC7, baseFish, baseBehavior, tank100, hs64, Real.sqrt_one]
  have hT1 : Fish.update realOps fishC7 2 none (some tank100) 0 zeroRands =
      { fishC7 with
        movement.undulation.speedMultiplier := 5 / 2
        movement.direction.isChangingDirection := true
        movement.direction.turnRate := 3 / 2
        physics.velocity := ⟨0, 0, 4⟩
        physics.position := ⟨50, 50, 9⟩ } := by
    have hpipe : Fish.update realOps fishC7 2 none (some tank100) 0 zeroRands =
        { Fish.updatePhysics realOps
            (Fish.updateBoundaryAvoidance realOps
              (Fish.updateRoll (Fish.updateDirectionChanges realOps
                (Fish.updateSpeedVariation (Fish.updateUndulation realOps fishC7 2)
                  2 0 0 0 0) 2 0 0 0) 2) tank100) 2
          with lastUpdateTime := 0 } := rfl
    rw [hpipe, h1, h2, h3, h4, h5]
    simp only [Fish.updatePhysics, Fish.updateVelocityFromHeading,
      Fish.updateRotationFromMovement, Vec3.add, Vec3.smul, realOps]
    norm_num [fishC7, baseFish, baseBehavior, hargone, Real.sin_zero]
  refine ⟨by rw [hT1], ?_, by norm_num [fishC7, baseFish, baseBehavior], by norm_num⟩
  rw [hT1]
  -- Tick two, starting from the scaled state at (50, 50, 9).
  have g1 : Fish.updateUndulation realOps
      ({ fishC7 with
        movement.undulation.speedMultiplier := 5 / 2
        movement.direction.isChangingDirection := true
        movement.direction.turnRate := 3 / 2
        physics.velocity := ⟨0, 0, 4⟩
        physics.position := ⟨50, 50, 9⟩ }) 2 =
      { fishC7 with
        movement.undulation.speedMultiplier := 5 / 2
        movement.direction.isChangingDirection := true
        movement.direction.turnRate := 3 / 2
        physics.velocity := ⟨0, 0, 4⟩
        physics.position := ⟨50, 50, 9⟩ } := by
    simp only [Fish.updateUndulation, realOps]
    norm_num [fishC7, baseFish, baseBehavior, not_pi_two_lt_zero]
  have g2 : Fish.updateSpeedVariation
      ({ fishC7 with
        movement.undulation.speedMultiplier := 5 / 2
        movement.direction.isChangingDirection := true
        movement.direction.turnRate := 3 / 2
        physics.velocity := ⟨0, 0, 4⟩
        physics.position := ⟨50, 50, 9⟩ }) 2 0 0 0 0 =
      { fishC7 with
        movement.undulation.speedMultiplier := 5 / 2
        movement.direction.isChangingDirection := true
        movement.direction.turnRate := 3 / 2
        physics.velocity := ⟨0, 0, 4⟩
        physics.position := ⟨50, 50, 9⟩ } := by
    simp only [Fish.updateSpeedVariation]
    norm_num [fishC7, baseFish, baseBehavior]
  have g3 : Fish.updateDirectionChanges realOps
      ({ fishC7 with
        movement.undulation.speedMultiplier := 5 / 2
        movement.direction.isChangingDirection := true
        movement.direction.turnRate := 3 / 2
        physics.velocity := ⟨0, 0, 4⟩
        physics.position := ⟨50, 50, 9⟩ }) 2 0 0 0 =
      { fishC7 with
        movement.undulation.speedMultiplier := 5 / 2
        movement.direction.turnRate := 3 / 2
        physics.velocity := ⟨0, 0, 4⟩
        physics.position := ⟨50, 50, 9⟩ } := by
    simp only [Fish.updateDirectionChanges, Vec3.angleTo, Vec3.normSq, Vec3.dot,
      realOps]
    norm_num [fishC7, baseFish, baseBehavior, Real.sqrt_one, Real.arccos_one]
  have g4 : Fish.updateRoll
      ({ fishC7 with
        movement.undulation.speedMultiplier := 5 / 2
        movement.direction.turnRate := 3 / 2
        physics.velocity := ⟨0, 0, 4⟩
        physics.position := ⟨50, 50, 9⟩ }) 2 =
      { fishC7 with
        movement.undulation.speedMultiplier := 5 / 2
        movement.direction.turnRate := 3 / 2
        physics.velocity := ⟨0, 0, 4⟩
        physics.position := ⟨50, 50, 9⟩ } := by
    simp only [Fish.updateRoll]
    norm_num [fishC7, baseFish, baseBehavior]
  have g5 : Fish.updateBoundaryAvoidance realOps
      ({ fishC7 with
        movement.undulation.speedMultiplier := 5 / 2
        movement.direction.turnRate := 3 / 2
        physics.velocity := ⟨0, 0, 4⟩
        physics.position := ⟨50, 50, 9⟩ }) tank100 =
      { fishC7 with
        movement.undulation.speedMultiplier := 5 / 2
        movement.direction.turnRate := 3 / 2
        physics.velocity := ⟨0, 0, 4⟩
        physics.position := ⟨50, 50, 9⟩ } := by
    simp only [Fish.updateBoundaryAvoidance, realOps, Vec3.len, Vec3.normSq]
    norm_num [fishC7, baseFish, baseBehavior, tank100, Real.sqrt_zero]
  have gpipe : Fish.update realOps
      ({ fishC7 with
        movement.undulation.speedMultiplier := 5 / 2
        movement.direction.isChangingDirection := true
        movement.direction.turnRate := 3 / 2
        physics.velocity := ⟨0, 0, 4⟩
        physics.position := ⟨50, 50, 9⟩ }) 2 none (some tank100) 0 zeroRands =
      { Fish.updatePhysics realOps
          (Fish.updateBoundaryAvoidance realOps
            (Fish.updateRoll (Fish.updateDirectionChanges realOps
              (Fish.updateSpeedVariation (Fish.updateUndulation realOps
                ({ fishC7 with
                  movement.undulation.speedMultiplier := 5 / 2
                  movement.direction.isChangingDirection := true
                  movement.direction.turnRate := 3 / 2
                  physics.velocity := ⟨0, 0, 4⟩
                  physics.position := ⟨50, 50, 9⟩ }) 2)
                2 0 0 0 0) 2 0 0 0) 2) tank100) 2
        with lastUpdateTime := 0 } := rfl
  rw [gpipe, g1, g2, g3, g4, g5]
  rfl

/-! ## C3 — containment precedence over social influence -/

/-- C3 (amended): the boundary-avoidance step does overwrite
`targetHeading` directly, and that heading is the end-of-tick
`targetHeading` whenever the later flocking step does not fire (here: no
neighbor list supplied). On a tick with nearby neighbors producing a
nonzero social force, however, `applySocialInfluence` runs **after**
containment and lerps `targetHeading` away from the containment heading
(rate `0.3*deltaTime`), even when containment was urgent — see the
counterexample. -/
theorem C3_containment_heading_final_without_social (s : Fish ℝ)
    (dt now : ℝ) (b : Box3 ℝ) (r : TickRands ℝ) :
    (Fish.update realOps s dt none (some b) now r).movement.direction.targetHeading =
      (Fish.updateBoundaryAvoidance realOps
        (Fish.updateRoll (Fish.updateDirectionChanges realOps
          (Fish.updateSpeedVariation (Fish.updateUndulation realOps s dt)
            dt now r.rSpeedTimer r.rMode r.rVar)
          dt now r.rDirTimer r.rDirAngle) dt) b).movement.direction.targetHeading := rfl

/-- C3 counterexample: a fish in the urgent zone of the `z = 0` face (the
containment step fires urgently: it sets `targetHeading = (0,0,1)` and
scales `turnRate` to `1.5`), with one neighbor 3 units away along `+x`.
On the same tick the social-influence step then lerps `targetHeading` to
`(3/5, 0, 4/5) ≠ (0,0,1)`: the containment-computed heading is **not** the
agent's `targetHeading` at the end of the tick. -/
theorem C3_social_overrides_urgent_containment :
    (Fish.updateBoundaryAvoidance realOps
        (Fish.updateRoll (Fish.updateDirectionChanges realOps
          (Fish.updateSpeedVariation (Fish.updateUndulation realOps fishC3 (10 / 7))
            (10 / 7) 0 0 0 0) (10 / 7) 0 0 0) (10 / 7))
        tank100).movement.direction.targetHeading = ⟨0, 0, 1⟩ ∧
      (Fish.updateBoundaryAvoidance realOps
        (Fish.updateRoll (Fish.updateDirectionChanges realOps
          (Fish.updateSpeedVariation (Fish.updateUndulation realOps fishC3 (10 / 7))
            (10 / 7) 0 0 0 0) (10 / 7) 0 0 0) (10 / 7))
        tank100).movement.direction.turnRate = 3 / 2 ∧
      (Fish.update realOps fishC3 (10 / 7) (some [fishC3n]) (some tank100) 0
          zeroRands).movement.direction.targetHeading = ⟨3 / 5, 0, 4 / 5⟩ ∧
      (⟨3 / 5, 0, 4 / 5⟩ : Vec3 ℝ) ≠ ⟨0, 0, 1⟩ := by
  have hs64 : Real.sqrt (64 / 25) = 8 / 5 := sqrt_eval (by norm_num) (by norm_num)
  have hs9 : Real.sqrt 9 = 3 := sqrt_eval (by norm_num) (by norm_num)
  have hs2549 : Real.sqrt (25 / 49) = 5 / 7 := sqrt_eval (by norm_num) (by norm_num)
  have h1 : Fish.updateUndulation realOps fishC3 (10 / 7) =
      { fishC3 with movement.undulation.speedMultiplier := 25 / 16 } := by
    simp only [Fish.updateUndulation, realOps]
    norm_num [fishC3, baseFish, baseBehavior, not_pi_two_lt_zero]
  have h2 : Fish.updateSpeedVariation
      ({ fishC3 with movement.undulation.speedMultiplier := 25 / 16 })
      (10 / 7) 0 0 0 0 =
      { fishC3 with movement.undulation.speedMultiplier := 25 / 16 } := by
    simp only [Fish.updateSpeedVariation]
    norm_num [fishC3, baseFish, baseBehavior]
  have h3 : Fish.updateDirectionChanges realOps
      ({ fishC3 with movement.undulation.speedMultiplier := 25 / 16 })
      (10 / 7) 0 0 0 =
      { fishC3 with movement.undulation.speedMultiplier := 25 / 16 } := by
    simp only [Fish.updateDirectionChanges]
    norm_num [fishC3, baseFish, baseBehavior]
  have h4 : Fish.updateRoll
      ({ fishC3 with movement.undulation.speedMultiplier := 25 / 16 }) (10 / 7) =
      { fishC3 with movement.undulation.speedMultiplier := 25 / 16 } := by
    simp only [Fish.updateRoll]
    norm_num [fishC3, baseFish, baseBehavior]
  have h5 : Fish.updateBoundaryAvoidance realOps
      ({ fishC3 with movement.undulation.speedMultiplier := 25 / 16 }) tank100 =
      { fishC3 with
        movement.undulation.speedMultiplier := 25 / 16
        movement.direction.isChangingDirection := true
        movement.direction.turnRate := 3 / 2 } := by
    simp only [Fish.updateBoundaryAvoidance, realOps, Vec3.len, Vec3.normSq,
      Vec3.normalize, Vec3.divScalar, Vec3.smul, Vec3.add]
    norm_num [fishC3, baseFish, baseBehavior, tank100, hs64, Real.sqrt_one]
  have h6 : Fish.updateFlockingBehavior realOps
      ({ fishC3 with
        movement.undulation.speedMultiplier := 25 / 16
        movement.direction.isChangingDirection := true
        movement.direction.turnRate := 3 / 2 }) [fishC3n] (10 / 7) =
      { fishC3 with
        movement.undulation.speedMultiplier := 25 / 16
        movement.direction.isChangingDirection := true
        movement.direction.turnRate := 3 / 2
        movement.direction.targetHeading := ⟨3 / 5, 0, 4 / 5⟩ } := by
    simp only [Fish.updateFlockingBehavior, Fish.getNearbyNeighbors,
      Fish.calculateCohesion, Fish.calculateSeparation, Fish.calculateAlignment,
      Fish.applySocialInfluence, Vec3.distanceTo, Vec3.len, Vec3.normSq,
      Vec3.sub, Vec3.add, Vec3.smul, Vec3.divScalar, Vec3.normalize, Vec3.zero,
      Vec3.lerp, List.filter, List.foldl, realOps]
    norm_num [fishC3, fishC3n, baseFish, baseBehavior, hs9, hs2549,
      Real.sqrt_one, Real.sqrt_zero]
  refine ⟨?_, ?_, ?_, ?_⟩
  · rw [h1, h2, h3, h4, h5]; rfl
  · rw [h1, h2, h3, h4, h5]
  · have hpipe : Fish.update realOps fishC3 (10 / 7) (some [fishC3n])
        (some tank100) 0 zeroRands =
        { Fish.updatePhysics realOps
            (Fish.updateFlockingBehavior realOps
              (Fish.updateBoundaryAvoidance realOps
                (Fish.updateRoll (Fish.updateDirectionChanges realOps
                  (Fish.updateSpeedVariation
                    (Fish.updateUndulation realOps fishC3 (10 / 7))
                    (10 / 7) 0 0 0 0) (10 / 7) 0 0 0) (10 / 7)) tank100)
              [fishC3n] (10 / 7)) (10 / 7)
          with lastUpdateTime := 0 } := rfl
    rw [hpipe, h1, h2, h3, h4, h5, h6]
    rfl
  · intro h
    have := congrArg Vec3.z h
    norm_num at this

/-! ## C9 — zero-neighbor and coincident-neighbor safety -/

/-- C9 (confirmed): when no supplied neighbor is a distinct fish within
`neighborRadius`, the flocking step is the identity on the agent's state
(heading state untouched, no force computed); each of the three boids
forces of an empty neighbor list is exactly the zero vector (no
normalization of a zero vector is attempted); and a neighbor exactly
coincident with the agent is skipped by the `distance > 0` guard of the
separation force, contributing zero. -/
theorem C9_zero_neighbor_safety (s n : Fish ℝ) (dt : ℝ)
    (neighbors rest : List (Fish ℝ))
    (hfar : ∀ m ∈ neighbors, m.id = s.id ∨
      ¬ (Vec3.distanceTo realOps s.physics.position m.physics.position ≤
        s.behavior.neighborRadius))
    (hco : n.physics.position = s.physics.position) :
    Fish.updateFlockingBehavior realOps s neighbors dt = s ∧
      Fish.calculateCohesion realOps s [] = Vec3.zero ∧
      Fish.calculateSeparation realOps s [] = Vec3.zero ∧
      Fish.calculateAlignment realOps [] = Vec3.zero ∧
      Fish.calculateSeparation realOps s (n :: rest) =
        Fish.calculateSeparation realOps s rest := by
  have hnil : Fish.getNearbyNeighbors realOps s neighbors = [] := by
    simp only [Fish.getNearbyNeighbors, List.filter_eq_nil_iff]
    intro a ha
    rcases hfar a ha with h | h
    · simp [h]
    · simp [h]
  refine ⟨?_, rfl, rfl, rfl, ?_⟩
  · simp only [Fish.updateFlockingBehavior, hnil, List.length_nil]
    rfl
  · have hd : Vec3.distanceTo realOps s.physics.position n.physics.position = 0 := by
      simp [Vec3.distanceTo, Vec3.len, Vec3.normSq, Vec3.sub, hco, realOps]
    simp [Fish.calculateSeparation, List.foldl_cons, hd]

/-- C9 witness: the theorem applied to the neutral fish with one neighbor
30 units away (outside the radius 10) and one coincident neighbor. -/
theorem C9_zero_neighbor_safety_witness :
    Fish.updateFlockingBehavior realOps baseFish [fishC9far] 1 = baseFish ∧
      Fish.calculateSeparation realOps baseFish [fishC9co] =
        Fish.calculateSeparation realOps baseFish [] := by
  have h900 : Real.sqrt 900 = 30 := sqrt_eval (by norm_num) (by norm_num)
  have h := C9_zero_neighbor_safety baseFish fishC9co 1 [fishC9far] []
    (by
      intro m hm
      rw [List.mem_singleton] at hm
      subst hm
      right
      have hd : Vec3.distanceTo realOps baseFish.physics.position
          fishC9far.physics.position = 30 := by
        simp only [Vec3.distanceTo, Vec3.len, Vec3.normSq, Vec3.sub, baseFish,
          fishC9far, realOps]
        norm_num [h900]
      rw [hd]
      norm_num [baseFish, baseBehavior])
    rfl
  exact ⟨h.1, h.2.2.2.2⟩

/-! ## C8 — behavior hot-update -/

theorem arg_one_mk : (⟨1, 0⟩ : ℂ).arg = 0 := by
  have h : (⟨1, 0⟩ : ℂ) = 1 := rfl
  rw [h, Complex.arg_one]

/-- C8 (amended): `FlockManager.updateBehavior` merges exactly the supplied
fields into every agent's behavior record (absent fields keep their old
values) and leaves every agent's kinematic state — undulation phase, roll,
speed state, heading, position, velocity — and size traits unchanged. The
merged values govern only the parameters the tick reads from `behavior`
directly (flocking strengths and radii, the weights, `maxTurnRate` inside
urgent containment); the values baked into `movement` at construction time
(undulation frequency, roll speed, speed acceleration, base turn rate) are
**not** re-derived, so those merged fields do not take effect on the next
tick — see the counterexample. -/
theorem C8_updateBehavior_merge (fs : List (Fish ℝ))
    (p : PartialFishBehavior ℝ) (f : Fish ℝ) (i : Nat) :
    (updateBehavior fs p).length = fs.length ∧
      (updateBehavior fs p)[i]? =
        (fs[i]?).map (fun g => { g with behavior := mergeBehavior g.behavior p }) ∧
      ({ f with behavior := mergeBehavior f.behavior p }).movement = f.movement ∧
      ({ f with behavior := mergeBehavior f.behavior p }).physics = f.physics ∧
      ({ f with behavior := mergeBehavior f.behavior p }).size = f.size ∧
      (mergeBehavior f.behavior p).accelerationRate =
        p.accelerationRate.getD f.behavior.accelerationRate ∧
      (mergeBehavior f.behavior p).cohesionStrength =
        p.cohesionStrength.getD f.behavior.cohesionStrength ∧
      (mergeBehavior f.behavior p).separationStrength =
        p.separationStrength.getD f.behavior.separationStrength ∧
      (mergeBehavior f.behavior p).alignmentStrength =
        p.alignmentStrength.getD f.behavior.alignmentStrength ∧
      (mergeBehavior f.behavior p).neighborRadius =
        p.neighborRadius.getD f.behavior.neighborRadius ∧
      (mergeBehavior f.behavior p).separationRadius =
        p.separationRadius.getD f.behavior.separationRadius ∧
      (mergeBehavior f.behavior p).maxTurnRate =
        p.maxTurnRate.getD f.behavior.maxTurnRate ∧
      (mergeBehavior f.behavior p).undulationFrequency =
        p.undulationFrequency.getD f.behavior.undulationFrequency ∧
      (mergeBehavior f.behavior p).rollSpeed =
        p.rollSpeed.getD f.behavior.rollSpeed := by
  refine ⟨?_, ?_, rfl, rfl, rfl, rfl, rfl, rfl, rfl, rfl, rfl, rfl, rfl, rfl⟩
  · exact List.length_map fs _
  · exact List.getElem?_map _ fs i

set_option maxHeartbeats 4000000 in
/-- C8 counterexample: a freshly constructed fish has
`movement.speed.acceleration = behavior.accelerationRate * agility = 1`
baked in. After `updateBehavior` raises `accelerationRate` to `100`, the
next tick (a mode change into BURST sets `targetSpeed = 4`) still moves
`currentSpeed` only from `1.5` to `2.5` — rate-limited by the baked
acceleration `1` — whereas the same tick on a fish whose movement-level
acceleration matched the merged value would reach `targetSpeed = 4`: the
merged `accelerationRate` does not govern behavior on the next tick. -/
theorem C8_merged_acceleration_not_used :
    updateBehavior [fishC8] accelPatch = [fishC8merged] ∧
      fishC8merged.movement.speed.acceleration = 1 ∧
      fishC8merged.behavior.accelerationRate = 100 ∧
      (Fish.update realOps fishC8merged 1 none none 9 randsC8).movement.speed.currentSpeed =
        5 / 2 ∧
      (Fish.update realOps fishC8merged 1 none none 9 randsC8).movement.speed.targetSpeed =
        4 ∧
      (Fish.update realOps fishC8fast 1 none none 9 randsC8).movement.speed.currentSpeed =
        4 ∧
      (5 / 2 : ℝ) ≠ 4 := by
  have hc8 : fishC8 = baseFish := by
    simp only [fishC8, Fish.construct, Fish.generateSizeCharacteristics,
      Fish.generateNormalRandom, Fish.updateVelocityFromHeading, realOps,
      Vec3.smul]
    norm_num [Real.log_one, Real.sqrt_zero, Real.cos_zero, baseFish,
      baseBehavior]
  -- Tick on the merged fish (baked acceleration 1).
  have m1 : Fish.updateUndulation realOps fishC8merged 1 =
      { fishC8merged with movement.undulation.speedMultiplier := 25 / 16 } := by
    simp only [Fish.updateUndulation, realOps]
    norm_num [fishC8merged, baseFish, baseBehavior, not_pi_two_lt_zero]
  have m2 : Fish.updateSpeedVariation
      ({ fishC8merged with movement.undulation.speedMultiplier := 25 / 16 })
      1 9 0 (99 / 100) (1 / 2) =
      { fishC8merged with
        movement.undulation.speedMultiplier := 25 / 16
        movement.speed.currentMode := 4
        movement.speed.targetSpeed := 4
        movement.speed.currentSpeed := 5 / 2
        movement.speed.lastModeChange := 9 } := by
    have habs : |(5 : ℝ) / 2| = 5 / 2 := abs_of_pos (by norm_num)
    have hmin : ((5 : ℝ) / 2) ⊓ 1 = 1 := min_eq_right (by norm_num)
    simp only [Fish.updateSpeedVariation, Fish.changeSpeedMode, jsSign]
    norm_num [fishC8merged, baseFish, baseBehavior, habs, hmin]
  have m3 : Fish.updateDirectionChanges realOps
      ({ fishC8merged with
        movement.undulation.speedMultiplier := 25 / 16
        movement.speed.currentMode := 4
        movement.speed.targetSpeed := 4
        movement.speed.currentSpeed := 5 / 2
        movement.speed.lastModeChange := 9 }) 1 9 (1 / 2) (1 / 2) =
      { fishC8merged with
        movement.undulation.speedMultiplier := 25 / 16
        movement.speed.currentMode := 4
        movement.speed.targetSpeed := 4
        movement.speed.currentSpeed := 5 / 2
        movement.speed.lastModeChange := 9
        movement.direction.lastDirectionChange := 9 } := by
    simp only [Fish.updateDirectionChanges, Fish.initiateDirectionChange,
      Fish.updateRollForTurn, Vec3.angleTo, Vec3.normSq, Vec3.dot,
      Vec3.normalize, Vec3.len, Vec3.divScalar, Vec3.smul, Vec3.cross, realOps]
    norm_num [fishC8merged, baseFish, baseBehavior, arg_one_mk, Real.sin_zero,
      Real.cos_zero, Real.sqrt_one, Real.arccos_one]
  have m4 : Fish.updateRoll
      ({ fishC8merged with
        movement.undulation.speedMultiplier := 25 / 16
        movement.speed.currentMode := 4
        movement.speed.targetSpeed := 4
        movement.speed.currentSpeed := 5 / 2
        movement.speed.lastModeChange := 9
        movement.direction.lastDirectionChange := 9 }) 1 =
      { fishC8merged with
        movement.undulation.speedMultiplier := 25 / 16
        movement.speed.currentMode := 4
        movement.speed.targetSpeed := 4
        movement.speed.currentSpeed := 5 / 2
        movement.speed.lastModeChange := 9
        movement.direction.lastDirectionChange := 9 } := by
    simp only [Fish.updateRoll]
    norm_num [fishC8merged, baseFish, baseBehavior]
  have hmtick : Fish.update realOps fishC8merged 1 none none 9 randsC8 =
      { Fish.updatePhysics realOps
          ({ fishC8merged with
            movement.undulation.speedMultiplier := 25 / 16
            movement.speed.currentMode := 4
            movement.speed.targetSpeed := 4
            movement.speed.currentSpeed := 5 / 2
            movement.speed.lastModeChange := 9
            movement.direction.lastDirectionChange := 9 }) 1
        with lastUpdateTime := 9 } := by
    have hpipe : Fish.update realOps fishC8merged 1 none none 9 randsC8 =
        { Fish.updatePhysics realOps
            (Fish.updateRoll (Fish.updateDirectionChanges realOps
              (Fish.updateSpeedVariation
                (Fish.updateUndulation realOps fishC8merged 1)
                1 9 0 (99 / 100) (1 / 2)) 1 9 (1 / 2) (1 / 2)) 1) 1
          with lastUpdateTime := 9 } := rfl
    rw [hpipe, m1, m2, m3, m4]
  -- Tick on the fish whose movement-level acceleration matches the merge.
  have f1 : Fish.updateUndulation realOps fishC8fast 1 =
      { fishC8fast with movement.undulation.speedMultiplier := 25 / 16 } := by
    simp only [Fish.updateUndulation, realOps]
    norm_num [fishC8fast, baseFish, baseBehavior, not_pi_two_lt_zero]
  have f2 : Fish.updateSpeedVariation
      ({ fishC8fast with movement.undulation.speedMultiplier := 25 / 16 })
      1 9 0 (99 / 100) (1 / 2) =
      { fishC8fast with
        movement.undulation.speedMultiplier := 25 / 16
        movement.speed.currentMode := 4
        movement.speed.targetSpeed := 4
        movement.speed.currentSpeed := 4
        movement.speed.lastModeChange := 9 } := by
    have habs : |(5 : ℝ) / 2| = 5 / 2 := abs_of_pos (by norm_num)
    have hmin : ((5 : ℝ) / 2) ⊓ 100 = 5 / 2 := min_eq_left (by norm_num)
    simp only [Fish.updateSpeedVariation, Fish.changeSpeedMode, jsSign]
    norm_num [fishC8fast, baseFish, baseBehavior, habs, hmin]
  have f3 : Fish.updateDirectionChanges realOps
      ({ fishC8fast with
        movement.undulation.speedMultiplier := 25 / 16
        movement.speed.currentMode := 4
        movement.speed.targetSpeed := 4
        movement.speed.currentSpeed := 4
        movement.speed.lastModeChange := 9 }) 1 9 (1 / 2) (1 / 2) =
      { fishC8fast with
        movement.undulation.speedMultiplier := 25 / 16
        movement.speed.currentMode := 4
        movement.speed.targetSpeed := 4
        movement.speed.currentSpeed := 4
        movement.speed.lastModeChange := 9
        movement.direction.lastDirectionChange := 9 } := by
    simp only [Fish.updateDirectionChanges, Fish.initiateDirectionChange,
      Fish.updateRollForTurn, Vec3.angleTo, Vec3.normSq, Vec3.dot,
      Vec3.normalize, Vec3.len, Vec3.divScalar, Vec3.smul, Vec3.cross, realOps]
    norm_num [fishC8fast, baseFish, baseBehavior, arg_one_mk, Real.sin_zero,
      Real.cos_zero, Real.sqrt_one, Real.arccos_one]
  have f4 : Fish.updateRoll
      ({ fishC8fast with
        movement.undulation.speedMultiplier := 25 / 16
        movement.speed.currentMode := 4
        movement.speed.targetSpeed := 4
        movement.speed.currentSpeed := 4
        movement.speed.lastModeChange := 9
        movement.direction.lastDirectionChange := 9 }) 1 =
      { fishC8fast with
        movement.undulation.speedMultiplier := 25 / 16
        movement.speed.currentMode := 4
        movement.speed.targetSpeed := 4
        movement.speed.currentSpeed := 4
        movement.speed.lastModeChange := 9
        movement.direction.lastDirectionChange := 9 } := by
    simp only [Fish.updateRoll]
    norm_num [fishC8fast, baseFish, baseBehavior]
  have hftick : Fish.update realOps fishC8fast 1 none none 9 randsC8 =
      { Fish.updatePhysics realOps
          ({ fishC8fast with
            movement.undulation.speedMultiplier := 25 / 16
            movement.speed.currentMode := 4
            movement.speed.targetSpeed := 4
            movement.speed.currentSpeed := 4
            movement.speed.lastModeChange := 9
            movement.direction.lastDirectionChange := 9 }) 1
        with lastUpdateTime := 9 } := by
    have hpipe : Fish.update realOps fishC8fast 1 none none 9 randsC8 =
        { Fish.updatePhysics realOps
            (Fish.updateRoll (Fish.updateDirectionChanges realOps
              (Fish.updateSpeedVariation
                (Fish.updateUndulation realOps fishC8fast 1)
                1 9 0 (99 / 100) (1 / 2)) 1 9 (1 / 2) (1 / 2)) 1) 1
          with lastUpdateTime := 9 } := rfl
    rw [hpipe, f1, f2, f3, f4]
  refine ⟨?_, rfl, rfl, ?_, ?_, ?_, by norm_num⟩
  · rw [show fishC8 = baseFish from hc8]
    rfl
  · rw [hmtick]; rfl
  · rw [hmtick]; rfl
  · rw [hftick]; rfl

/-! ## C5 — neighbor discovery -/

/-- Membership characterization of the brute-force `findNeighbors`. -/
theorem mem_fishFindNeighbors (self f : FishB ℝ) (all : List (FishB ℝ))
    (radius : ℝ) :
    f ∈ FlockManagerB.fishFindNeighbors realOps self all radius ↔
      f ∈ all ∧ f.id ≠ self.id ∧ f.isActive = true ∧
        Vec3.distanceTo realOps self.position f.position ≤ radius := by
  simp only [FlockManagerB.fishFindNeighbors, List.mem_filter]
  refine and_congr_right fun _ => ?_
  by_cases hc : f.id = self.id ∨ f.isActive = false
  · rw [if_pos hc]
    simp only [Bool.false_eq_true, false_iff]
    rintro ⟨h1, h2, -⟩
    rcases hc with h | h
    · exact h1 h
    · rw [h2] at h; exact Bool.true_eq_false.mp h
  · rw [if_neg hc]
    push_neg at hc
    obtain ⟨hne, hact⟩ := hc
    have hact' : f.isActive = true := by simpa using hact
    simp [decide_eq_true_eq, hne, hact']

/-- Membership characterization of one spatial-grid cell. -/
theorem mem_spatialGridCell (ps : ℝ) (all : List (FishB ℝ)) (f : FishB ℝ)
    (key : ℤ × ℤ × ℤ) :
    f ∈ FlockManagerB.spatialGridCell ps all key ↔
      f ∈ all ∧ f.isActive = true ∧
        FlockManagerB.cellOf ps f.position = key := by
  simp [FlockManagerB.spatialGridCell, List.mem_filter, Bool.and_eq_true,
    decide_eq_true_eq, and_assoc]

/-- The 27 loop offsets are exactly the integer triples with every
component in `[-1, 1]`. -/
theorem mem_offsets27 (d : ℤ × ℤ × ℤ) :
    d ∈ FlockManagerB.offsets27 ↔
      |d.1| ≤ 1 ∧ |d.2.1| ≤ 1 ∧ |d.2.2| ≤ 1 := by
  obtain ⟨dx, dy, dz⟩ := d
  simp only [FlockManagerB.offsets27, List.mem_flatMap, List.mem_map,
    List.mem_cons, List.not_mem_nil, or_false, Prod.mk.injEq]
  constructor
  · rintro ⟨ax, hax, ay, hay, az, haz, h1, h2, h3⟩
    subst h1; subst h2; subst h3
    refine ⟨?_, ?_, ?_⟩ <;> [skip; skip; skip] <;>
      first
        | (rcases hax with h | h | h <;> subst h <;> decide)
        | (rcases hay with h | h | h <;> subst h <;> decide)
        | (rcases haz with h | h | h <;> subst h <;> decide)
  · rintro ⟨h1, h2, h3⟩
    rw [abs_le] at h1 h2 h3
    exact ⟨dx, by omega, dy, by omega, dz, by omega, rfl, rfl, rfl⟩

/-- Per-axis coordinate distance is bounded by the Euclidean distance. -/
theorem axis_le_distance (a b : Vec3 ℝ) :
    |a.x - b.x| ≤ Vec3.distanceTo realOps a b ∧
      |a.y - b.y| ≤ Vec3.distanceTo realOps a b ∧
      |a.z - b.z| ≤ Vec3.distanceTo realOps a b := by
  have hx : (a.x - b.x) * (a.x - b.x) ≤ Vec3.normSq (Vec3.sub a b) := by
    simp only [Vec3.normSq, Vec3.sub]; nlinarith [sq_nonneg (a.y - b.y), sq_nonneg (a.z - b.z)]
  have hy : (a.y - b.y) * (a.y - b.y) ≤ Vec3.normSq (Vec3.sub a b) := by
    simp only [Vec3.normSq, Vec3.sub]; nlinarith [sq_nonneg (a.x - b.x), sq_nonneg (a.z - b.z)]
  have hz : (a.z - b.z) * (a.z - b.z) ≤ Vec3.normSq (Vec3.sub a b) := by
    simp only [Vec3.normSq, Vec3.sub]; nlinarith [sq_nonneg (a.x - b.x), sq_nonneg (a.y - b.y)]
  refine ⟨?_, ?_, ?_⟩
  · calc |a.x - b.x| = Real.sqrt ((a.x - b.x) * (a.x - b.x)) := by
          rw [Real.sqrt_mul_self_eq_abs]
    _ ≤ Real.sqrt (Vec3.normSq (Vec3.sub a b)) := Real.sqrt_le_sqrt hx
    _ = Vec3.distanceTo realOps a b := rfl
  · calc |a.y - b.y| = Real.sqrt ((a.y - b.y) * (a.y - b.y)) := by
          rw [Real.sqrt_mul_self_eq_abs]
    _ ≤ Real.sqrt (Vec3.normSq (Vec3.sub a b)) := Real.sqrt_le_sqrt hy
    _ = Vec3.distanceTo realOps a b := rfl
  · calc |a.z - b.z| = Real.sqrt ((a.z - b.z) * (a.z - b.z)) := by
          rw [Real.sqrt_mul_self_eq_abs]
    _ ≤ Real.sqrt (Vec3.normSq (Vec3.sub a b)) := Real.sqrt_le_sqrt hz
    _ = Vec3.distanceTo realOps a b := rfl

/-- Floors of reals at most one apart differ by at most one. -/
theorem floor_abs_le_one {u v : ℝ} (h : |u - v| ≤ 1) : |⌊u⌋ - ⌊v⌋| ≤ 1 := by
  rw [abs_le] at h ⊢
  have h1 : u ≤ v + 1 := by linarith [h.2]
  have h2 : v ≤ u + 1 := by linarith [h.1]
  have f1 : ⌊u⌋ ≤ ⌊v⌋ + 1 := by
    calc ⌊u⌋ ≤ ⌊v + 1⌋ := Int.floor_le_floor h1
      _ = ⌊v⌋ + 1 := Int.floor_add_one v
  have f2 : ⌊v⌋ ≤ ⌊u⌋ + 1 := by
    calc ⌊v⌋ ≤ ⌊u + 1⌋ := Int.floor_le_floor h2
      _ = ⌊u⌋ + 1 := Int.floor_add_one u
  omega

/-- Fish within a distance of at most `partitionSize` of each other sit in
the same or adjacent grid cells. -/
theorem dist_le_cellAdjacent (ps radius : ℝ) (hps : 0 < ps)
    (hr : radius ≤ ps) (a b : Vec3 ℝ)
    (hd : Vec3.distanceTo realOps a b ≤ radius) :
    cellAdjacent ps a b := by
  have hax := (axis_le_distance a b).1
  have hay := (axis_le_distance a b).2.1
  have haz := (axis_le_distance a b).2.2
  have key : ∀ u v : ℝ, |u - v| ≤ ps → |⌊v / ps⌋ - ⌊u / ps⌋| ≤ 1 := by
    intro u v huv
    have hdiv : |v / ps - u / ps| ≤ 1 := by
      rw [show v / ps - u / ps = (v - u) / ps by ring]
      rw [abs_div, abs_of_pos hps]
      rw [div_le_one hps]
      calc |v - u| = |u - v| := abs_sub_comm v u
        _ ≤ ps := huv
    exact floor_abs_le_one hdiv
  refine ⟨?_, ?_, ?_⟩
  · exact key a.x b.x (by linarith [hax])
  · exact key a.y b.y (by linarith [hay])
  · exact key a.z b.z (by linarith [haz])

/-- Membership characterization of the grid-accelerated variant: exactly
the other active fish within the radius **and** within the 27-cell
neighborhood. -/
theorem mem_findNeighborsOptimized (cfg : FlockConfigB ℝ)
    (all : List (FishB ℝ)) (self f : FishB ℝ) (radius : ℝ)
    (hsp : cfg.spatialPartitioning = true) :
    f ∈ FlockManagerB.findNeighborsOptimized realOps cfg all self radius ↔
      f ∈ all ∧ f.id ≠ self.id ∧ f.isActive = true ∧
        Vec3.distanceTo realOps self.position f.position ≤ radius ∧
        cellAdjacent cfg.partitionSize self.position f.position := by
  simp only [FlockManagerB.findNeighborsOptimized, hsp]
  rw [if_neg (by simp)]
  rw [List.mem_flatMap]
  constructor
  · rintro ⟨d, hd, hmem⟩
    rw [List.mem_filter] at hmem
    obtain ⟨hcell, hpred⟩ := hmem
    rw [mem_spatialGridCell] at hcell
    obtain ⟨hall, hact, hkey⟩ := hcell
    simp only [Bool.and_eq_true, Bool.not_eq_true', decide_eq_false_iff_not,
      decide_eq_true_eq] at hpred
    obtain ⟨⟨hid, -⟩, hdist⟩ := hpred
    rw [mem_offsets27] at hd
    simp only [FlockManagerB.cellOf, Prod.mk.injEq] at hkey
    obtain ⟨k1, k2, k3⟩ := hkey
    refine ⟨hall, hid, hact, hdist, ?_, ?_, ?_⟩
    · rw [k1]; simpa using hd.1
    · rw [k2]; simpa using hd.2.1
    · rw [k3]; simpa using hd.2.2
  · rintro ⟨hall, hid, hact, hdist, ha1, ha2, ha3⟩
    refine ⟨(⌊f.position.x / cfg.partitionSize⌋ - ⌊self.position.x / cfg.partitionSize⌋,
             ⌊f.position.y / cfg.partitionSize⌋ - ⌊self.position.y / cfg.partitionSize⌋,
             ⌊f.position.z / cfg.partitionSize⌋ - ⌊self.position.z / cfg.partitionSize⌋),
        ?_, ?_⟩
    · rw [mem_offsets27]
      exact ⟨ha1, ha2, ha3⟩
    · rw [List.mem_filter]
      refine ⟨?_, ?_⟩
      · rw [mem_spatialGridCell]
        refine ⟨hall, hact, ?_⟩
        simp only [FlockManagerB.cellOf, Prod.mk.injEq]
        omega
      · simp [Bool.and_eq_true, decide_eq_true_eq, hid, hact, hdist]

/-- C5 (amended): the brute-force `findNeighbors` returns exactly the
other active fish within `radius` (self excluded by id, inactive excluded);
with spatial partitioning off, `findNeighborsOptimized` is the same
function; with it on, it returns exactly the other active fish within
`radius` **that also lie in the same or an adjacent grid cell**, which
coincides with the brute-force set whenever `radius ≤ partitionSize` — but
not in general (see the counterexample, and note that the Phase-1
`Fish.getNearbyNeighbors` brute-force variant excludes only the querying
fish itself: its fish have no inactive flag at all). -/
theorem C5_neighbor_discovery (cfg : FlockConfigB ℝ) (all : List (FishB ℝ))
    (self f : FishB ℝ) (radius : ℝ) (hps : 0 < cfg.partitionSize)
    (hr : radius ≤ cfg.partitionSize) :
    (f ∈ FlockManagerB.fishFindNeighbors realOps self all radius ↔
      f ∈ all ∧ f.id ≠ self.id ∧ f.isActive = true ∧
        Vec3.distanceTo realOps self.position f.position ≤ radius) ∧
    (cfg.spatialPartitioning = false →
      FlockManagerB.findNeighborsOptimized realOps cfg all self radius =
        FlockManagerB.fishFindNeighbors realOps self all radius) ∧
    (cfg.spatialPartitioning = true →
      (f ∈ FlockManagerB.findNeighborsOptimized realOps cfg all self radius ↔
        f ∈ all ∧ f.id ≠ self.id ∧ f.isActive = true ∧
          Vec3.distanceTo realOps self.position f.position ≤ radius ∧
          cellAdjacent cfg.partitionSize self.position f.position)) ∧
    (cfg.spatialPartitioning = true →
      (f ∈ FlockManagerB.findNeighborsOptimized realOps cfg all self radius ↔
        f ∈ FlockManagerB.fishFindNeighbors realOps self all radius)) := by
  refine ⟨mem_fishFindNeighbors self f all radius, ?_, ?_, ?_⟩
  · intro hsp
    simp [FlockManagerB.findNeighborsOptimized, hsp]
  · intro hsp
    exact mem_findNeighborsOptimized cfg all self f radius hsp
  · intro hsp
    rw [mem_findNeighborsOptimized cfg all self f radius hsp,
      mem_fishFindNeighbors self f all radius]
    constructor
    · rintro ⟨hall, hid, hact, hdist, -⟩
      exact ⟨hall, hid, hact, hdist⟩
    · rintro ⟨hall, hid, hact, hdist⟩
      exact ⟨hall, hid, hact, hdist,
        dist_le_cellAdjacent cfg.partitionSize radius hps hr
          self.position f.position hdist⟩

/-- C5 counterexample: with `partitionSize = 1` and query radius `3`, an
active fish at distance `3` (three cells away along `x`) is returned by the
brute-force variant but **not** by the grid-accelerated variant: the two
variants do not return the same set when the radius exceeds the partition
size. -/
theorem C5_grid_misses_neighbor :
    fishC5other ∈ FlockManagerB.fishFindNeighbors realOps fishC5self
        [fishC5self, fishC5other] 3 ∧
      fishC5other ∉ FlockManagerB.findNeighborsOptimized realOps cfgC5
        [fishC5self, fishC5other] fishC5self 3 ∧
      fishC5other.isActive = true ∧
      Vec3.distanceTo realOps fishC5self.position fishC5other.position ≤ 3 := by
  have hdist : Vec3.distanceTo realOps fishC5self.position fishC5other.position = 3 := by
    have h9 : Real.sqrt 9 = 3 := sqrt_eval (by norm_num) (by norm_num)
    simp only [Vec3.distanceTo, Vec3.len, Vec3.normSq, Vec3.sub, fishC5self,
      fishC5other, realOps]
    norm_num [h9]
  refine ⟨?_, ?_, rfl, le_of_eq hdist⟩
  · rw [mem_fishFindNeighbors]
    refine ⟨by simp, by simp [fishC5other, fishC5self], rfl, le_of_eq hdist⟩
  · intro hmem
    have hchar := (mem_findNeighborsOptimized cfgC5 [fishC5self, fishC5other]
      fishC5self fishC5other 3 rfl).mp hmem
    have hadj := hchar.2.2.2.2.1
    rw [show cfgC5.partitionSize = 1 from rfl] at hadj
    simp only [fishC5self, fishC5other] at hadj
    norm_num at hadj

/-- C5 witness: the amended theorem applied at query radius `1` (equal to
the partition size) on the two-fish configuration. -/
theorem C5_neighbor_discovery_witness :
    fishC5other ∈ FlockManagerB.findNeighborsOptimized realOps cfgC5
        [fishC5self, fishC5other] fishC5self 1 ↔
      fishC5other ∈ FlockManagerB.fishFindNeighbors realOps fishC5self
        [fishC5self, fishC5other] 1 :=
  (C5_neighbor_discovery cfgC5 [fishC5self, fishC5other] fishC5self
    fishC5other 1 (by norm_num [cfgC5]) (by norm_num [cfgC5])).2.2.2 rfl

/-! ## C10 — shrinking the population -/

theorem markFirstInactive_length {α : Type} (l : List (FishB α)) (fid : Nat) :
    (FlockManagerB.markFirstInactive l fid).1.length = l.length := by
  induction l with
  | nil => rfl
  | cons f rest ih =>
    simp only [FlockManagerB.markFirstInactive]
    split_ifs <;> simp [ih]

theorem markFirstInactive_strip {α : Type} (l : List (FishB α)) (fid : Nat) :
    (FlockManagerB.markFirstInactive l fid).1.map
        (fun f => (f.id, f.position, f.velocity)) =
      l.map (fun f => (f.id, f.position, f.velocity)) := by
  induction l with
  | nil => rfl
  | cons f rest ih =>
    simp only [FlockManagerB.markFirstInactive]
    split_ifs <;> simp [ih]

theorem markFromInactive_getElem {α : Type} (nc : Nat) (l : List (FishB α)) :
    ∀ j i, (FlockManagerB.markFromInactive nc j l)[i]? =
      (l[i]?).map (fun f => if nc ≤ j + i then { f with isActive := false } else f) := by
  induction l with
  | nil => intro j i; simp [FlockManagerB.markFromInactive]
  | cons f rest ih =>
    intro j i
    cases i with
    | zero => simp [FlockManagerB.markFromInactive]
    | succ k =>
      simp only [FlockManagerB.markFromInactive, List.getElem?_cons_succ]
      rw [ih (j + 1) k]
      rw [show j + 1 + k = j + (k + 1) from by omega]

theorem markFromInactive_length {α : Type} (nc : Nat) (l : List (FishB α)) :
    ∀ j, (FlockManagerB.markFromInactive nc j l).length = l.length := by
  induction l with
  | nil => intro j; rfl
  | cons f rest ih => intro j; simp [FlockManagerB.markFromInactive, ih]

theorem markFromInactive_strip {α : Type} (nc : Nat) (l : List (FishB α)) :
    ∀ j, (FlockManagerB.markFromInactive nc j l).map
        (fun f => (f.id, f.position, f.velocity)) =
      l.map (fun f => (f.id, f.position, f.velocity)) := by
  induction l with
  | nil => intro j; rfl
  | cons f rest ih =>
    intro j
    simp only [FlockManagerB.markFromInactive, List.map_cons, ih]
    split_ifs <;> rfl

/-- The fish array produced by a shrinking `updateConfig`. -/
theorem updateConfig_shrink_fish (m : FlockManagerB ℝ) (nc : Nat)
    (p : PartialFlockConfigB ℝ) (spawn : Nat → FishB ℝ)
    (hfc : p.fishCount = some nc) (hne : nc ≠ m.config.fishCount)
    (hlt : nc < m.fish.length) :
    (FlockManagerB.updateConfig m p spawn).fish =
      FlockManagerB.markFromInactive nc 0 m.fish := by
  simp only [FlockManagerB.updateConfig, hfc]
  rw [if_pos hne, if_neg (by omega), if_pos hlt]

/-- C10 (confirmed): `removeFish` and a shrinking `updateConfig` only mark
agents inactive: the backing array keeps its length and every entry keeps
its id, position and velocity; `removeFish` flips no field but `isActive`,
and `updateConfig` deactivates exactly the indices `≥ newCount`;
`getFish` returns only active fish, `getStats().activeFish` counts only
active fish, while `getStats().fishCount` still reports the backing-array
length, inactive agents included. -/
theorem C10_shrink_marks_inactive (m : FlockManagerB ℝ) (fid nc i : Nat)
    (p : PartialFlockConfigB ℝ) (spawn : Nat → FishB ℝ) (g : FishB ℝ)
    (hfc : p.fishCount = some nc) (hne : nc ≠ m.config.fishCount)
    (hlt : nc < m.fish.length) :
    ((FlockManagerB.removeFish m fid).1.fish.length = m.fish.length) ∧
      ((FlockManagerB.removeFish m fid).1.fish.map
          (fun f => (f.id, f.position, f.velocity)) =
        m.fish.map (fun f => (f.id, f.position, f.velocity))) ∧
      (g ∈ FlockManagerB.getFish m → g.isActive = true) ∧
      (FlockManagerB.getFish m = m.fish.filter (fun f => f.isActive)) ∧
      ((FlockManagerB.getStats realOps m).fishCount = m.fish.length) ∧
      ((FlockManagerB.getStats realOps m).activeFish =
        (m.fish.filter (fun f => f.isActive)).length) ∧
      ((FlockManagerB.updateConfig m p spawn).fish.length = m.fish.length) ∧
      ((FlockManagerB.updateConfig m p spawn).fish.map
          (fun f => (f.id, f.position, f.velocity)) =
        m.fish.map (fun f => (f.id, f.position, f.velocity))) ∧
      ((FlockManagerB.updateConfig m p spawn).fish[i]? =
        (m.fish[i]?).map
          (fun f => if nc ≤ i then { f with isActive := false } else f)) ∧
      ((FlockManagerB.getStats realOps
          (FlockManagerB.updateConfig m p spawn)).fishCount = m.fish.length) := by
  have hshrink := updateConfig_shrink_fish m nc p spawn hfc hne hlt
  refine ⟨markFirstInactive_length m.fish fid,
    markFirstInactive_strip m.fish fid, ?_, rfl, rfl, rfl, ?_, ?_, ?_, ?_⟩
  · intro hg
    simp only [FlockManagerB.getFish, List.mem_filter] at hg
    exact hg.2
  · rw [hshrink]; exact markFromInactive_length nc m.fish 0
  · rw [hshrink]; exact markFromInactive_strip nc m.fish 0
  · rw [hshrink, markFromInactive_getElem nc m.fish 0 i]
    simp
  · show (FlockManagerB.updateConfig m p spawn).fish.length = m.fish.length
    rw [hshrink]; exact markFromInactive_length nc m.fish 0

/-- C10 witness: the theorem applied to the three-fish manager, removing
fish `1` and shrinking the population from 3 to 2. -/
theorem C10_shrink_marks_inactive_witness :
    (FlockManagerB.removeFish mgrC10 1).1.fish.length = mgrC10.fish.length ∧
      (FlockManagerB.getStats realOps mgrC10).fishCount = mgrC10.fish.length ∧
      (FlockManagerB.getStats realOps
          (FlockManagerB.updateConfig mgrC10 { fishCount := some 2 }
            (fun _ => fishC5self))).fishCount = mgrC10.fish.length := by
  have h := C10_shrink_marks_inactive mgrC10 1 2 0 { fishCount := some 2 }
    (fun _ => fishC5self) fishC5self rfl
    (by simp [mgrC10]) (by simp [mgrC10])
  exact ⟨h.1, h.2.2.2.2.1, h.2.2.2.2.2.2.2.2.2⟩

end Sardines
